import Mathlib

/-!
Verification development for the SE Ranking export-automation scripts
(`src/run.js` and its variant scripts).  The JavaScript sources are embedded
shallowly: pure helper functions become Lean functions over `List Char` /
`String`, and the effectful `main` pipelines become pure functions from an
oracle (environment, race outcome, network responses, upload success) to a
trace of observable effects plus an `Except` result.  Browser UI interaction
(locator clicks) is abstracted to a single success flag, since no property
below depends on the locator details.
-/

namespace AiTracker

/-! ## Basic string machinery (JS semantics over `List Char`) -/

/-- Lowercase a string character-wise, mirroring `String.prototype.toLowerCase`
for the ASCII header/MIME data handled by the scripts. -/
def lowerStr (s : String) : String := String.mk (s.data.map Char.toLower)

/-- Uppercase a string character-wise, mirroring `String.prototype.toUpperCase`. -/
def upperStr (s : String) : String := String.mk (s.data.map Char.toUpper)

/-- Boolean prefix test on character lists. -/
def listPfx : List Char → List Char → Bool
  | [], _ => true
  | _ :: _, [] => false
  | p :: ps, c :: cs => p == c && listPfx ps cs

/-- Boolean contiguous-substring test: `listInf pat l` holds when `pat` occurs
contiguously in `l`; mirrors `String.prototype.includes`. -/
def listInf (pat : List Char) : List Char → Bool
  | [] => pat.isEmpty
  | c :: cs => listPfx pat (c :: cs) || listInf pat cs

/-- Substring containment on strings, mirroring `s.includes(pat)`. -/
def strContainsL (s pat : String) : Bool := listInf pat.data s.data

/-- Prefix test on strings, mirroring `s.startsWith(pat)`. -/
def strStartsWithL (s pat : String) : Bool := listPfx pat.data s.data

/-- The apostrophe character, kept out of literals for hygiene. -/
def squoteChar : Char := Char.ofNat 39

/-- The double-quote character. -/
def dquoteChar : Char := Char.ofNat 34

/-- Whitespace as matched by the JS `\s` class and `String.prototype.trim`
(restricted to the code points that can occur in the headers at hand). -/
def isJsSpace (c : Char) : Bool :=
  c = ' ' || c = Char.ofNat 9 || c = Char.ofNat 10 || c = Char.ofNat 13 ||
  c = Char.ofNat 11 || c = Char.ofNat 12 || c = Char.ofNat 0xA0

/-- Trim JS whitespace from both ends of a character list. -/
def jsTrimList (l : List Char) : List Char :=
  ((l.dropWhile isJsSpace).reverse.dropWhile isJsSpace).reverse

/-- Trim JS whitespace from both ends of a string, mirroring `s.trim()`. -/
def jsTrim (s : String) : String := String.mk (jsTrimList s.data)

/-- Drop one leading double quote if present; first half of the
`replace(/(^"|"$)/g, "")` in `filenameFromContentDisposition`. -/
def dropLeadQuote (l : List Char) : List Char :=
  match l with
  | [] => []
  | c :: cs => if c = dquoteChar then cs else c :: cs

/-- Drop one trailing double quote if present; second half of the
`replace(/(^"|"$)/g, "")` in `filenameFromContentDisposition`. -/
def dropTrailQuote (l : List Char) : List Char :=
  match l.reverse with
  | [] => l
  | c :: cs => if c = dquoteChar then cs.reverse else l

/-- Strip one leading and one trailing double quote, mirroring
`token.replace(/(^"|"$)/g, "")`. -/
def stripOuterQuotes (l : List Char) : List Char := dropTrailQuote (dropLeadQuote l)

/-! ## UTF-8 and percent decoding (the semantics of `decodeURIComponent`) -/

/-- UTF-8 encoding of a single character, used for the raw (unescaped)
characters passing through `decodeURIComponent`. -/
def charUtf8Bytes (c : Char) : List Nat :=
  let n := c.toNat
  if n < 0x80 then [n]
  else if n < 0x800 then [0xC0 + n / 64, 0x80 + n % 64]
  else if n < 0x10000 then [0xE0 + n / 4096, 0x80 + (n / 64) % 64, 0x80 + n % 64]
  else [0xF0 + n / 262144, 0x80 + (n / 4096) % 64, 0x80 + (n / 64) % 64, 0x80 + n % 64]

/-- Strict UTF-8 decoder: rejects truncated sequences, bad continuation
bytes, overlong encodings, surrogate code points and values above
`U+10FFFF`, exactly the conditions under which `decodeURIComponent`
raises `URIError` for its decoded byte stream. -/
def utf8DecodeList : List Nat → Option (List Char)
  | [] => some []
  | b :: bs =>
    if b < 0x80 then
      (utf8DecodeList bs).map (fun cs => Char.ofNat b :: cs)
    else if b < 0xC2 then none
    else if b < 0xE0 then
      match bs with
      | b1 :: bs1 =>
        if 0x80 ≤ b1 && b1 < 0xC0 then
          (utf8DecodeList bs1).map (fun cs => Char.ofNat ((b - 0xC0) * 64 + (b1 - 0x80)) :: cs)
        else none
      | [] => none
    else if b < 0xF0 then
      match bs with
      | b1 :: b2 :: bs2 =>
        if (0x80 ≤ b1 && b1 < 0xC0) && (0x80 ≤ b2 && b2 < 0xC0) then
          let cp := (b - 0xE0) * 4096 + (b1 - 0x80) * 64 + (b2 - 0x80)
          if cp < 0x800 || (0xD800 ≤ cp && cp < 0xE000) then none
          else (utf8DecodeList bs2).map (fun cs => Char.ofNat cp :: cs)
        else none
      | _ => none
    else if b < 0xF5 then
      match bs with
      | b1 :: b2 :: b3 :: bs3 =>
        if ((0x80 ≤ b1 && b1 < 0xC0) && (0x80 ≤ b2 && b2 < 0xC0)) && (0x80 ≤ b3 && b3 < 0xC0) then
          let cp := (b - 0xF0) * 262144 + (b1 - 0x80) * 4096 + (b2 - 0x80) * 64 + (b3 - 0x80)
          if cp < 0x10000 || 0x10FFFF < cp then none
          else (utf8DecodeList bs3).map (fun cs => Char.ofNat cp :: cs)
        else none
      | _ => none
    else none

/-- Value of one hexadecimal digit, case-insensitive. -/
def hexDigitVal (c : Char) : Option Nat :=
  if '0' ≤ c && c ≤ '9' then some (c.toNat - 48)
  else if 'a' ≤ c && c ≤ 'f' then some (c.toNat - 87)
  else if 'A' ≤ c && c ≤ 'F' then some (c.toNat - 55)
  else none

/-- Turn a percent-escaped character sequence into bytes: each `%XX` escape
contributes its byte, every other character contributes its UTF-8 bytes;
fails on a malformed escape (as `decodeURIComponent` does). -/
def pctDecodeBytes : List Char → Option (List Nat)
  | [] => some []
  | c :: cs =>
    if c = '%' then
      match cs with
      | c1 :: c2 :: rest =>
        match hexDigitVal c1, hexDigitVal c2 with
        | some h1, some h2 => (pctDecodeBytes rest).map (fun bs => (h1 * 16 + h2) :: bs)
        | _, _ => none
      | _ => none
    else (pctDecodeBytes cs).map (fun bs => charUtf8Bytes c ++ bs)

/-- Total model of `decodeURIComponent`: `none` exactly where the JS
function throws `URIError` (malformed escape or invalid UTF-8). -/
def decodeURIComponentOpt (s : String) : Option String :=
  (pctDecodeBytes s.data).bind (fun bs => (utf8DecodeList bs).map String.mk)

/-! ## The Content-Disposition filename matcher of `src/run.js` lines 35-51

The two regular expressions
`/filename\*\s*=\s*UTF-8''([^;]+)/i` and `/filename\s*=\s*("?)([^";]+)\1/i`
are realised as explicit left-to-right scanners over `List Char`, with the
backtracking behaviour of the second one (optional quote with a
backreference) resolved as in the JS engine: the quoted alternative is
attempted first, and on its failure the unquoted alternative starts at the
same position. -/

/-- Match a fixed pattern (given in lowercase) case-insensitively at the head
of the input, returning the rest of the input. -/
def matchFixedCI : List Char → List Char → Option (List Char)
  | [], rest => some rest
  | _ :: _, [] => none
  | p :: ps, c :: cs => if c.toLower = p then matchFixedCI ps cs else none

/-- Skip the JS `\s*` class. -/
def skipJsWs (l : List Char) : List Char := l.dropWhile isJsSpace

/-- Require a specific character at the head of the input. -/
def expectChar (c : Char) : List Char → Option (List Char)
  | [] => none
  | x :: xs => if x = c then some xs else none

/-- The literal `filename*` of the first regex, lowercased. -/
def fnStarPat : List Char := ['f', 'i', 'l', 'e', 'n', 'a', 'm', 'e', '*']

/-- The literal `UTF-8` followed by two apostrophes, lowercased. -/
def utf8QQPat : List Char := ['u', 't', 'f', '-', '8', squoteChar, squoteChar]

/-- The literal `filename` of the second regex, lowercased. -/
def fnPat : List Char := ['f', 'i', 'l', 'e', 'n', 'a', 'm', 'e']

/-- Attempt the extended-form regex at the current position: `filename*`,
optional spaces, `=`, optional spaces, `UTF-8` and two apostrophes, then a
nonempty capture of characters other than `;`. -/
def starCaptureAt (l : List Char) : Option (List Char) := do
  let r1 ← matchFixedCI fnStarPat l
  let r2 ← expectChar '=' (skipJsWs r1)
  let r3 ← matchFixedCI utf8QQPat (skipJsWs r2)
  let cap := r3.takeWhile (fun c => decide (c ≠ ';'))
  if cap.isEmpty then none else some cap

/-- Scan left to right for the first position where the extended-form regex
matches, as the JS engine does. -/
def scanStarCapture : List Char → Option (List Char)
  | [] => none
  | c :: cs =>
    match starCaptureAt (c :: cs) with
    | some cap => some cap
    | none => scanStarCapture cs

/-- The unquoted alternative of the second regex: a nonempty capture of
characters other than `"` and `;` starting right here. -/
def bareCapture (l : List Char) : Option (List Char) :=
  let cap := l.takeWhile (fun c => !(c = dquoteChar || c = ';'))
  if cap.isEmpty then none else some cap

/-- Attempt the plain-form regex `filename\s*=\s*("?)([^";]+)\1` at the
current position: after `filename`, spaces and `=`, try the quoted
alternative first and fall back to the unquoted one, as regex backtracking
does. -/
def quoteCaptureAt (l : List Char) : Option (List Char) := do
  let r1 ← matchFixedCI fnPat l
  let r2 ← expectChar '=' (skipJsWs r1)
  let r3 := skipJsWs r2
  match r3 with
  | [] => none
  | c :: cs =>
    if c = dquoteChar then
      let cap := cs.takeWhile (fun x => !(x = dquoteChar || x = ';'))
      match cs.drop cap.length with
      | d :: _ => if d = dquoteChar && !cap.isEmpty then some cap else bareCapture r3
      | [] => bareCapture r3
    else bareCapture r3

/-- Scan left to right for the first position where the plain-form regex
matches. -/
def scanQuoteCapture : List Char → Option (List Char)
  | [] => none
  | c :: cs =>
    match quoteCaptureAt (c :: cs) with
    | some cap => some cap
    | none => scanQuoteCapture cs

/-- Embedding of `filenameFromContentDisposition` (`src/run.js` lines 35-51):
the extended `filename*=UTF-8''...` form is tried first and its capture is
trimmed, stripped of one outer quote pair and percent-decoded, falling back
to the raw token when decoding throws; otherwise the plain `filename=`
form's capture is trimmed and returned; otherwise `null`. -/
def filenameFromContentDisposition (cd : Option String) : Option String :=
  match cd with
  | none => none
  | some s =>
    if s = "" then none
    else
      match scanStarCapture s.data with
      | some cap =>
        let token := String.mk (stripOuterQuotes (jsTrimList cap))
        match decodeURIComponentOpt token with
        | some dec => some dec
        | none => some token
      | none =>
        match scanQuoteCapture s.data with
        | some cap => some (String.mk (jsTrimList cap))
        | none => none

/-! ## Header and MIME helpers shared by the variants -/

/-- First-match association lookup, modelling access to a JS header object. -/
def alookup (xs : List (String × String)) (k : String) : Option String :=
  match xs.find? (fun p => p.1 == k) with
  | some p => some p.2
  | none => none

/-- JS `a || b` on possibly-absent strings: the right operand is taken when
the left is `undefined` or the empty string. -/
def jsStrOr (a b : Option String) : Option String :=
  match a with
  | some s => if s = "" then b else some s
  | none => b

/-- Model of `headers[k1] || headers[k2]`, the double-cased header lookup
used throughout the scripts. -/
def getHdr (hs : List (String × String)) (k1 k2 : String) : Option String :=
  jsStrOr (alookup hs k1) (alookup hs k2)

/-- Embedding of the `cd && /attachment/i.test(cd)` checks. -/
def isAttachmentCd (cd : Option String) : Bool :=
  match cd with
  | none => false
  | some s => strContainsL (lowerStr s) "attachment"

/-- Embedding of `looksLikeExportUrl` (`src/run.js` lines 62-65). -/
def looksLikeExportUrl (url : String) : Bool :=
  let u := lowerStr url
  strContainsL u "export" || strContainsL u "download" || strContainsL u "file"

/-- Embedding of the `looksLikeFile` content-type test of `src/run.js`
lines 301-304, shared verbatim by the response predicate of
`src/unnamed/part_003` lines 151-154. -/
def looksLikeFileType (ct : Option String) : Bool :=
  let t := lowerStr (ct.getD "")
  strContainsL t "text/csv" || strContainsL t "spreadsheetml" ||
    strContainsL t "application/vnd.ms-excel"

/-- Embedding of `extFromContentType` (`src/run.js` lines 53-60). -/
def extFromContentType (ct : Option String) (preferredFormat : String) : String :=
  let t := lowerStr (ct.getD "")
  if strContainsL t "text/csv" then "csv"
  else if strContainsL t "spreadsheetml" then "xlsx"
  else if strContainsL t "application/vnd.ms-excel" then "xls"
  else if preferredFormat = "CSV" then "csv"
  else "xlsx"

/-- Embedding of `extFromContentType` of `src/unnamed/part_003` lines 51-58,
which spells out the full OOXML MIME type instead of `spreadsheetml`. -/
def extFromContentTypeOoxml (ct : Option String) (preferredFormat : String) : String :=
  let t := lowerStr (ct.getD "")
  if strContainsL t "text/csv" then "csv"
  else if strContainsL t "application/vnd.openxmlformats-officedocument.spreadsheetml.sheet"
    then "xlsx"
  else if strContainsL t "application/vnd.ms-excel" then "xls"
  else if preferredFormat = "CSV" then "csv"
  else "xlsx"

/-- The header allow-list of `pickSafeHeaders` (`src/run.js` lines 69-76). -/
def safeHeaderAllowList : List String :=
  ["accept", "accept-language", "content-type", "x-requested-with", "origin", "referer"]

/-- Assignment into a JS-object-like association list: an existing key keeps
its position and gets the new value, a new key is appended. -/
def upsert (acc : List (String × String)) (k v : String) : List (String × String) :=
  match acc with
  | [] => [(k, v)]
  | (k0, v0) :: rest => if k0 = k then (k, v) :: rest else (k0, v0) :: upsert rest k v

/-- Embedding of `pickSafeHeaders` (`src/run.js` lines 67-83): keep only the
allow-listed headers, keys lowercased. -/
def pickSafeHeaders (hs : List (String × String)) : List (String × String) :=
  hs.foldl
    (fun acc p =>
      let key := lowerStr p.1
      if safeHeaderAllowList.contains key then upsert acc key p.2 else acc)
    []

/-! ## JSON values and `findDownloadUrlInJsonText` (`src/run.js` lines 125-148)

JSON values are embedded as an inductive type; `JSON.parse` itself is an
oracle input (`none` models a parse exception), since the claims concern the
field-selection logic, not the JSON grammar. -/

/-- JSON values as produced by `JSON.parse`. -/
inductive JsVal where
  | jnull
  | jbool (b : Bool)
  | jnum (n : Int)
  | jstr (s : String)
  | jarr (elems : List JsVal)
  | jobj (fields : List (String × JsVal))

/-- Object-field lookup with the last-duplicate-wins semantics of
`JSON.parse`. -/
def jsFieldLookup (fields : List (String × JsVal)) (k : String) : Option JsVal :=
  match fields with
  | [] => none
  | (k0, v) :: rest =>
    match jsFieldLookup rest k with
    | some r => some r
    | none => if k0 = k then some v else none

/-- JS property access `j.k`: `undefined` (here `none`) on anything but an
object with that field. -/
def jsGet (j : JsVal) (k : String) : Option JsVal :=
  match j with
  | .jobj fs => jsFieldLookup fs k
  | _ => none

/-- JS optional-chained access `j.k1?.k2`. -/
def jsGet2 (j : JsVal) (k1 k2 : String) : Option JsVal :=
  match jsGet j k1 with
  | some v => jsGet v k2
  | none => none

/-- JS truthiness of a JSON value, as used by `.filter(Boolean)`. -/
def jsTruthy (v : JsVal) : Bool :=
  match v with
  | .jnull => false
  | .jbool b => b
  | .jnum n => !(n == 0)
  | .jstr s => !(s == "")
  | .jarr _ => true
  | .jobj _ => true

/-- The ordered candidate fields of `findDownloadUrlInJsonText`
(`src/run.js` lines 131-141). -/
def jsCandidates (j : JsVal) : List (Option JsVal) :=
  [jsGet j "download_url", jsGet j "downloadUrl", jsGet j "file_url", jsGet j "fileUrl",
   jsGet j "url", jsGet2 j "result" "url", jsGet2 j "data" "url",
   jsGet2 j "data" "download_url", jsGet2 j "data" "downloadUrl"]

/-- The `find` predicate of line 143: a string value starting with `http`. -/
def isHttpStringVal (v : JsVal) : Bool :=
  match v with
  | .jstr s => strStartsWithL s "http"
  | _ => false

/-- Core of `findDownloadUrlInJsonText` once `JSON.parse` has succeeded:
present candidates are filtered for truthiness and the first string starting
with `http` is returned. -/
def findDownloadUrlInJson (parsed : Option JsVal) : Option String :=
  match parsed with
  | none => none
  | some j =>
    match (((jsCandidates j).filterMap id).filter jsTruthy).find? isHttpStringVal with
    | some (.jstr s) => some s
    | _ => none

/-- Embedding of `findDownloadUrlInJsonText` (`src/run.js` lines 125-148):
falsy input text yields `null`; `parsed` is the oracle outcome of
`JSON.parse` on the text, `none` standing for the caught parse exception. -/
def findDownloadUrlInJsonText (txt : Option String) (parsed : Option JsVal) : Option String :=
  match txt with
  | none => none
  | some s => if s = "" then none else findDownloadUrlInJson parsed

/-- Specification-side reading of the same selection, without the
`.filter(Boolean)` step: the first candidate field that is present, a
string, and starts with `http`. -/
def firstHttpFieldValue (j : JsVal) : Option String :=
  match ((jsCandidates j).filterMap id).find? isHttpStringVal with
  | some (.jstr s) => some s
  | _ => none

/-! ## The run pipeline of `src/run.js` as a trace-producing function

`main` (lines 150-381) is embedded as a pure function from an `Oracle` -
the process environment plus the nondeterministic outcomes of the browser
and network operations - to a list of observable effects and an `Except`
result (`Except.error` models a thrown error, which `main().catch` turns
into a non-zero process exit).  The UI-locator section (lines 211-247) has
no bearing on any claim and is abstracted to the single flag `uiOk`;
`download.saveAs` and filesystem writes are assumed to succeed, while the
webhook upload of `src/upload.js` may fail (`uploadOk`), since it throws on
a non-2xx response. -/

/-- Observable effects of one run, in order of occurrence. -/
inductive Eff where
  | launch
  | newContext
  | newPage
  | goto (url : String)
  | replayFetch (url method : String) (headers : List (String × String)) (hasBody : Bool)
  | getFetch (url : String)
  | artifactWrite (name : String) (size : Nat)
  | uploadCall (filename fmt mtd : String)
  | debugPng (name : String)
  | debugHtml (name : String)
  | debugJson (name : String)
  | ctxClose
  | browserClose
deriving DecidableEq

/-- A Playwright `download` event: its suggested filename (empty string when
absent) and the size of the browser-managed file. -/
structure DownloadEvt where
  suggestedFilename : String
  size : Nat

/-- The export request captured by `page.waitForRequest`. -/
structure CapturedReq where
  url : String
  method : String
  headers : List (String × String)
  postData : Option (List Nat)

/-- Outcome of the `Promise.race` of `src/run.js` lines 258-262. -/
inductive RaceOutcome where
  | download (d : DownloadEvt)
  | request (r : CapturedReq)
  | nothing

/-- Outcome of the underlying `context.request.fetch` call inside
`fetchLikeBrowser`: `bodyRes = none` models `res.body()` throwing, and
`textRes = none` models `res.text()` throwing. -/
structure RawFetch where
  ok : Bool
  status : Nat
  headers : List (String × String)
  bodyRes : Option (List Nat)
  textRes : Option String

/-- Outcome of the follow-up `context.request.get(downloadUrl)` call. -/
structure Res2 where
  ok : Bool
  status : Nat
  statusText : String
  headers : List (String × String)
  body : List Nat

/-- Oracle for one run of `src/run.js`. -/
structure Oracle where
  env : List (String × String)
  newContextOk : Bool
  newPageOk : Bool
  gotoOk : Bool
  uiOk : Bool
  race : RaceOutcome
  rawFetch : RawFetch
  parsedText : Option JsVal
  res2 : Res2
  uploadOk : Bool
  screenshotOk : Bool
  nowIso : String

/-- The in-memory view of a `fetchLikeBrowser` result (`src/run.js`
line 122). -/
structure Fetched where
  ok : Bool
  status : Nat
  resHeaders : List (String × String)
  buffer : Option (List Nat)
  text : Option String
  url : String
  method : String

/-- Embedding of `fetchLikeBrowser` (`src/run.js` lines 85-123): one replay
of the captured request with only allow-listed headers; the text body is
read only when the byte body is missing or empty. -/
def fetchLikeBrowser (req : CapturedReq) (raw : RawFetch) : Eff × Fetched :=
  let headers := pickSafeHeaders req.headers
  let bufMissing := match raw.bodyRes with | none => true | some b => b.isEmpty
  (Eff.replayFetch req.url req.method headers req.postData.isSome,
   { ok := raw.ok, status := raw.status, resHeaders := raw.headers,
     buffer := raw.bodyRes, text := if bufMissing then raw.textRes else none,
     url := req.url, method := req.method })

/-- Embedding of `new Date().toISOString().replace(/[:.]/g, "_")`. -/
def tsClean (s : String) : String :=
  String.mk (s.data.map (fun c => if c = ':' || c = '.' then '_' else c))

/-- Embedding of `writeDebugArtifacts` (`src/run.js` lines 17-33) as the
files it writes: the screenshot is best-effort (its failure is swallowed by
`.catch(() => {})`), the HTML and JSON dumps are always written, and all
three names share one timestamp. -/
def writeDebugArtifactsEff (nowIso : String) (screenshotOk : Bool) : List Eff :=
  let ts := tsClean nowIso
  (if screenshotOk then [Eff.debugPng ("fail-" ++ ts ++ ".png")] else [])
    ++ [Eff.debugHtml ("fail-" ++ ts ++ ".html"), Eff.debugJson ("fail-" ++ ts ++ ".json")]

/-- The debug files written by the `catch` clause: none on success, the
`writeDebugArtifacts` files on a thrown error. -/
def dbgOf (r : Except String Unit) (nowIso : String) (screenshotOk : Bool) : List Eff :=
  match r with
  | .ok _ => []
  | .error _ => writeDebugArtifactsEff nowIso screenshotOk

/-- Embedding of `requireEnv` (`src/run.js` lines 7-11): a falsy value
(absent or empty) throws `Missing env var: <name>`. -/
def requireEnvE (env : List (String × String)) (name : String) : Except String String :=
  match alookup env name with
  | some v => if v = "" then .error ("Missing env var: " ++ name) else .ok v
  | none => .error ("Missing env var: " ++ name)

/-- Embedding of `(process.env.EXPORT_FORMAT || "CSV").toUpperCase()`. -/
def preferredFormatOf (env : List (String × String)) : String :=
  upperStr ((jsStrOr (alookup env "EXPORT_FORMAT") (some "CSV")).getD "CSV")

/-- The generated fallback artifact name `export.<ext>` of the
download-event branch (`src/run.js` line 267). -/
def fallbackExportName (pf : String) : String :=
  "export." ++ (if pf = "CSV" then "csv" else "xlsx")

/-- Artifact name of the download-event branch (`src/run.js` lines 266-267,
identical in `src/unnamed/part_001` lines 154-155 and `part_003`
lines 179-180). -/
def rjsDownloadName (suggested : String) (pf : String) : String :=
  if suggested = "" then fallbackExportName pf else suggested

/-- The acceptance guard of the request-replay branch (`src/run.js`
line 306). -/
def rjsCaptureGuard (f : Fetched) (cd ct : Option String) : Bool :=
  f.ok && (isAttachmentCd cd || looksLikeFileType ct) &&
    (match f.buffer with | some b => !b.isEmpty | none => false)

/-- Artifact name of the network branches: the Content-Disposition filename
or the generated `export.<ext>` (`src/run.js` lines 308-309 and 343-344). -/
def headerOrExtName (cd : Option String) (ext : String) : String :=
  (jsStrOr (filenameFromContentDisposition cd) (some ("export." ++ ext))).getD
    ("export." ++ ext)

/-- The error thrown at `src/run.js` lines 367-369 when nothing usable was
received. -/
def noFileMsg (status : Nat) (ct cd : Option String) : String :=
  "Export request uitgevoerd, maar geen bestand ontvangen. status=" ++ toString status ++
    " ct=" ++ ct.getD "" ++ " cd=" ++ cd.getD ""

/-- The `fetchLikeBrowser` result used in the request branch
(`src/run.js` line 295). -/
def reqFetchedOf (o : Oracle) (req : CapturedReq) : Fetched :=
  (fetchLikeBrowser req o.rawFetch).2

/-- The replay effect emitted in the request branch. -/
def reqReplayEff (o : Oracle) (req : CapturedReq) : Eff :=
  (fetchLikeBrowser req o.rawFetch).1

/-- Content-Disposition of the replayed response (`src/run.js` line 298). -/
def reqCdOf (o : Oracle) (req : CapturedReq) : Option String :=
  getHdr (reqFetchedOf o req).resHeaders "content-disposition" "Content-Disposition"

/-- Content-Type of the replayed response (`src/run.js` line 297). -/
def reqCtOf (o : Oracle) (req : CapturedReq) : Option String :=
  getHdr (reqFetchedOf o req).resHeaders "content-type" "Content-Type"

/-- The download URL extracted from the replayed response's JSON text
(`src/run.js` line 331). -/
def reqFindUrl (o : Oracle) (req : CapturedReq) : Option String :=
  findDownloadUrlInJsonText (reqFetchedOf o req).text o.parsedText

/-- Artifact name chosen in the request-bytes branch (`src/run.js`
lines 307-309). -/
def reqNameOf (o : Oracle) (req : CapturedReq) (pf : String) : String :=
  headerOrExtName (reqCdOf o req) (extFromContentType (reqCtOf o req) pf)

/-- Artifact name chosen in the download-URL branch (`src/run.js`
lines 339-344). -/
def res2NameOf (o : Oracle) (pf : String) : String :=
  headerOrExtName (getHdr o.res2.headers "content-disposition" "Content-Disposition")
    (extFromContentType (getHdr o.res2.headers "content-type" "Content-Type") pf)

/-- Embedding of the `try` block of `main` (`src/run.js` lines 207-369) from
navigation onwards: navigation, abstracted UI interaction, then the capture
race with its three branches (download event, request replay, JSON download
URL). -/
def rjsTryBody (o : Oracle) (guestUrl pf : String) : List Eff × Except String Unit :=
  if !o.gotoOk then ([Eff.goto guestUrl], .error "page.goto failed")
  else
    let t0 := [Eff.goto guestUrl]
    if !o.uiOk then (t0, .error "export UI interaction failed")
    else
      match o.race with
      | .download d =>
        let name := rjsDownloadName d.suggestedFilename pf
        (t0 ++ [Eff.artifactWrite name d.size, Eff.uploadCall name pf "download-event"],
         if o.uploadOk then .ok () else .error "Webhook upload failed")
      | .request req =>
        let t1 := t0 ++ [reqReplayEff o req]
        if rjsCaptureGuard (reqFetchedOf o req) (reqCdOf o req) (reqCtOf o req) then
          let name := reqNameOf o req pf
          let size := match (reqFetchedOf o req).buffer with | some b => b.length | none => 0
          (t1 ++ [Eff.artifactWrite name size, Eff.uploadCall name pf "request-fetch-bytes"],
           if o.uploadOk then .ok () else .error "Webhook upload failed")
        else
          match reqFindUrl o req with
          | some u =>
            if (reqFetchedOf o req).ok then
              let t2 := t1 ++ [Eff.getFetch u]
              if !o.res2.ok then
                (t2, .error ("Download URL ophalen faalde: " ++ toString o.res2.status ++
                  " " ++ o.res2.statusText))
              else
                (t2 ++ [Eff.artifactWrite (res2NameOf o pf) o.res2.body.length,
                   Eff.uploadCall (res2NameOf o pf) pf "json-to-download-url"],
                 if o.uploadOk then .ok () else .error "Webhook upload failed")
            else (t1, .error (noFileMsg (reqFetchedOf o req).status (reqCtOf o req) (reqCdOf o req)))
          | none => (t1, .error (noFileMsg (reqFetchedOf o req).status (reqCtOf o req) (reqCdOf o req)))
      | .nothing =>
        (t0, .error "Geen download event en geen export request gezien na export klik.")

/-- Result of one run: the effect trace and the process outcome. -/
structure RunOut where
  trace : List Eff
  result : Except String Unit

/-- Embedding of `main` (`src/run.js` lines 150-381): required environment
variables are read before the browser is launched; `newContext` and
`newPage` happen after the launch but outside the `try`, so their failure
skips both the `catch` and the `finally`; failures inside the `try` write
the debug artifacts and re-raise; the `finally` closes context and browser. -/
def runMain (o : Oracle) : RunOut :=
  match requireEnvE o.env "SE_RANKING_GUEST_URL" with
  | .error e => ⟨[], .error e⟩
  | .ok guestUrl =>
    match requireEnvE o.env "WEBHOOK_URL" with
    | .error e => ⟨[], .error e⟩
    | .ok _ =>
      let pf := preferredFormatOf o.env
      if !o.newContextOk then ⟨[Eff.launch], .error "browser.newContext failed"⟩
      else if !o.newPageOk then
        ⟨[Eff.launch, Eff.newContext], .error "context.newPage failed"⟩
      else
        let pre := [Eff.launch, Eff.newContext, Eff.newPage]
        let bt := rjsTryBody o guestUrl pf
        match bt.2 with
        | .ok _ => ⟨pre ++ bt.1 ++ [Eff.ctxClose, Eff.browserClose], .ok ()⟩
        | .error e =>
          ⟨pre ++ bt.1 ++ writeDebugArtifactsEff o.nowIso o.screenshotOk ++
             [Eff.ctxClose, Eff.browserClose], .error e⟩

/-! ## The variant scripts needed by the claims -/

/-- A response matched by `page.waitForResponse` in `src/unnamed/part_003`. -/
structure P3Resp where
  url : String
  headers : List (String × String)
  body : List Nat

/-- Outcome of the race of `src/unnamed/part_003` lines 171-175. -/
inductive P3Race where
  | download (d : DownloadEvt)
  | response (r : P3Resp)
  | nothing

/-- Embedding of the `waitForResponse` predicate of `src/unnamed/part_003`
lines 138-162: an attachment Content-Disposition matches outright;
otherwise the URL must look like an export URL and the content type like a
spreadsheet/CSV file. -/
def p3ResponseMatches (url : String) (cd ct : Option String) : Bool :=
  isAttachmentCd cd || (looksLikeExportUrl url && looksLikeFileType ct)

/-- Embedding of the post-race capture section of `src/unnamed/part_003`
lines 177-235: the download branch saves and uploads; the response branch
computes the artifact name, throws on an empty body without any replay
fetch, and otherwise writes and uploads the in-band body; no winner throws. -/
def p3Capture (race : P3Race) (pf : String) (uploadOk : Bool) :
    List Eff × Except String Unit :=
  match race with
  | .download d =>
    let name := rjsDownloadName d.suggestedFilename pf
    ([Eff.artifactWrite name d.size, Eff.uploadCall name pf "download-event"],
     if uploadOk then .ok () else .error "Webhook upload failed")
  | .response r =>
    let cd := getHdr r.headers "content-disposition" "Content-Disposition"
    let ct := getHdr r.headers "content-type" "Content-Type"
    let name := headerOrExtName cd (extFromContentTypeOoxml ct pf)
    if r.body.isEmpty then ([], .error "Export response ontvangen, maar body is leeg.")
    else
      ([Eff.artifactWrite name r.body.length, Eff.uploadCall name pf "attachment-response"],
       if uploadOk then .ok () else .error "Webhook upload failed")
  | .nothing =>
    ([], .error "Geen download event en geen attachment response gezien na export klik.")

/-- The fallback artifact name `export-<timestamp>.csv` of the
Playwright-variant scripts (`src/unnamed/part_000` line 417, `part_004`
line 168, `part_005` line 205). -/
def pvDownloadFallbackName (nowIso : String) : String :=
  "export-" ++ tsClean nowIso ++ ".csv"

/-- Artifact name of the download branch of those variants: the suggested
name, or the timestamped fallback. -/
def pvDownloadName (suggested : String) (nowIso : String) : String :=
  if suggested = "" then pvDownloadFallbackName nowIso else suggested

/-- Embedding of `saveDebugArtifacts` of `src/unnamed/part_004` lines 25-37:
screenshot and HTML dump inside one `try`, so that a failing page operation
(modelled by `pageOpsOk = false`) writes neither file. -/
def p4SaveDebugArtifacts (nowIso tag : String) (pageOpsOk : Bool) : List Eff :=
  let ts := tsClean nowIso
  if pageOpsOk then
    [Eff.debugPng (tag ++ "-" ++ ts ++ ".png"), Eff.debugHtml (tag ++ "-" ++ ts ++ ".html")]
  else []

/-- Embedding of the `try` body of `main` of `src/unnamed/part_002`
lines 31-77: navigation, UI interaction, then a single awaited download
event (there is no response race and no header capture in this variant);
the suggested filename is used as-is, the file is saved and uploaded. A
missing download event is the `waitForEvent` timeout rejection. -/
def p2TryBody (o : Oracle) (guestUrl pf : String) : List Eff × Except String Unit :=
  if !o.gotoOk then ([Eff.goto guestUrl], .error "page.goto failed")
  else
    let t0 := [Eff.goto guestUrl]
    if !o.uiOk then (t0, .error "export UI interaction failed")
    else
      match o.race with
      | .download d =>
        (t0 ++ [Eff.artifactWrite d.suggestedFilename d.size,
           Eff.uploadCall d.suggestedFilename pf "download-event"],
         if o.uploadOk then .ok () else .error "Webhook upload failed")
      | _ => (t0, .error "waitForEvent download timed out")

/-- Embedding of `main` of `src/unnamed/part_002` lines 17-85: required
environment variables are read before the launch; `newContext` and
`newPage` again run outside the `try`; the `try` is wrapped only by a
`finally` that closes context and browser — there is no `catch` and no
debug-artifact writer anywhere in this file, so a failure writes neither a
screenshot nor an HTML snapshot and propagates to the process-exit
handler. -/
def p2Main (o : Oracle) : RunOut :=
  match requireEnvE o.env "SE_RANKING_GUEST_URL" with
  | .error e => ⟨[], .error e⟩
  | .ok guestUrl =>
    match requireEnvE o.env "WEBHOOK_URL" with
    | .error e => ⟨[], .error e⟩
    | .ok _ =>
      let pf := preferredFormatOf o.env
      if !o.newContextOk then ⟨[Eff.launch], .error "browser.newContext failed"⟩
      else if !o.newPageOk then
        ⟨[Eff.launch, Eff.newContext], .error "context.newPage failed"⟩
      else
        let bt := p2TryBody o guestUrl pf
        ⟨[Eff.launch, Eff.newContext, Eff.newPage] ++ bt.1 ++
           [Eff.ctxClose, Eff.browserClose], bt.2⟩

/-- Embedding of the guest-URL resolution of `src/unnamed/part_005`
lines 108: CLI `--guestUrl`/`--guesturl` first, the environment variable as
fallback, each step skipping falsy values. -/
def p5GuestUrl (args env : List (String × String)) : Option String :=
  jsStrOr (jsStrOr (alookup args "guestUrl") (alookup args "guesturl"))
    (alookup env "SE_RANKING_GUEST_URL")

/-- Embedding of `main` of `src/unnamed/part_005` lines 104-135 up to the
browser launch: a missing guest URL exits with code 1 before
`chromium.launch` is reached. -/
def p5MainStart (args env : List (String × String)) : List Eff × Except Nat Unit :=
  match p5GuestUrl args env with
  | none => ([], .error 1)
  | some g => if g = "" then ([], .error 1) else ([Eff.launch], .ok ())

/-! ## Trace observations -/

/-- Is an effect an artifact file write in the downloads directory? -/
def isArtifactEff : Eff → Bool
  | .artifactWrite _ _ => true
  | _ => false

/-- Is an effect a webhook delivery attempt? -/
def isUploadEff : Eff → Bool
  | .uploadCall _ _ _ => true
  | _ => false

/-- Is an effect the request replay of `fetchLikeBrowser`? -/
def isReplayEff : Eff → Bool
  | .replayFetch _ _ _ _ => true
  | _ => false

/-- Is an effect the follow-up `context.request.get` of a JSON-supplied
download URL? -/
def isGetFetchEff : Eff → Bool
  | .getFetch _ => true
  | _ => false

/-- Is an effect a debug screenshot write? -/
def isPngEff : Eff → Bool
  | .debugPng _ => true
  | _ => false

/-- Is an effect a debug HTML write? -/
def isHtmlEff : Eff → Bool
  | .debugHtml _ => true
  | _ => false

/-- Number of effects satisfying a predicate. -/
def countEff (p : Eff → Bool) (tr : List Eff) : Nat := (tr.filter p).length

/-- Number of delivery attempts carrying a given capture-method tag. -/
def countUploadMethod (mtd : String) (tr : List Eff) : Nat :=
  countEff (fun e => match e with | .uploadCall _ _ m => m == mtd | _ => false) tr

/-- Number of zero-byte artifact writes. -/
def countEmptyArtifacts (tr : List Eff) : Nat :=
  countEff (fun e => match e with | .artifactWrite _ n => n == 0 | _ => false) tr

/-- Did the run end in a thrown error (hence a non-zero process exit)? -/
def resultIsError : Except String Unit → Bool
  | .error _ => true
  | .ok _ => false

/-- The thrown error message, when there is one. -/
def resultErrorMsg : Except String Unit → Option String
  | .error e => some e
  | .ok _ => none

/-! ## Definitions supporting the claim statements -/

/-- The OOXML spreadsheet MIME type named by the specification. -/
def ooxmlMime : String :=
  "application/vnd.openxmlformats-officedocument.spreadsheetml.sheet"

/-- The OOXML spreadsheet *template* MIME type: a real content type that
contains the substring `spreadsheetml` without containing `ooxmlMime`. -/
def ooxmlTemplateMime : String :=
  "application/vnd.openxmlformats-officedocument.spreadsheetml.template"

/-- Is a required environment value JS-falsy (absent or empty)? -/
def envFalsy (env : List (String × String)) (name : String) : Bool :=
  match alookup env name with
  | none => true
  | some v => v == ""

/-- A concrete oracle with an empty process environment, used by the C7
witness. -/
def emptyEnvOracle : Oracle :=
  ⟨[], true, true, true, true, .nothing, ⟨true, 200, [], none, none⟩, none,
   ⟨true, 200, "OK", [], []⟩, true, true, "t"⟩

/-- A well-formed process environment for the concrete run scenarios. -/
def goodEnv : List (String × String) :=
  [("SE_RANKING_GUEST_URL", "https://seranking.test/guest"),
   ("WEBHOOK_URL", "https://hook.test/w")]

/-- A fully successful oracle whose race is won by a download event. -/
def baseOracle : Oracle :=
  ⟨goodEnv, true, true, true, true, .download ⟨"rank.csv", 10⟩,
   ⟨true, 200, [], none, none⟩, none, ⟨true, 200, "OK", [], []⟩, true, true,
   "2026-10-11T01:02:03.456Z"⟩

/-- Oracle for a run whose webhook delivery fails after a successful
download capture. -/
def c1FailedUploadOracle : Oracle := { baseOracle with uploadOk := false }

/-- Oracle for a run in which `browser.newContext` throws. -/
def c9NoContextOracle : Oracle := { baseOracle with newContextOk := false }

/-- Oracle for a post-navigation failure during which the page can no
longer be screenshotted. -/
def c8NoShotOracle : Oracle := { baseOracle with uiOk := false, screenshotOk := false }

/-- Oracle for a post-navigation failure with a healthy page. -/
def c8ShotOracle : Oracle := { baseOracle with uiOk := false }

/-- The JSON body returned by the replayed export call in the concrete
download-URL scenario. -/
def dlJson : JsVal :=
  .jobj [("status", .jstr "done"),
         ("data", .jobj [("download_url", .jstr "https://dl.test/f.csv")])]

/-- The captured export request of the concrete request-branch scenarios. -/
def c10Req : CapturedReq :=
  ⟨"https://seranking.test/api/export?do=download", "POST",
   [("Cookie", "c"), ("Accept", "application/json")], some [1, 2]⟩

/-- Oracle for the scenario in which the replayed export call returns JSON
holding a download URL. -/
def c10Oracle : Oracle :=
  { baseOracle with
    race := .request c10Req,
    rawFetch := ⟨true, 200, [("content-type", "application/json")], some [],
      some "\x7b\x22data\x22:\x7b\x22download_url\x22:\x22https://dl.test/f.csv\x22\x7d\x7d"⟩,
    parsedText := some dlJson,
    res2 := ⟨true, 200, "OK", [("content-type", "text/csv")], [65, 66]⟩ }

/-- A matching export response with an empty body, for C2. -/
def c2EmptyResp : P3Resp :=
  ⟨"https://a.test/export",
   [("content-disposition", "attachment; filename=x.csv"), ("content-type", "text/csv")], []⟩

/-- An image response carrying an attachment Content-Disposition, for C4. -/
def c4ImageAttachResp : P3Resp :=
  ⟨"https://a.test/download?id=1",
   [("content-disposition", "attachment; filename=chart.png"),
    ("content-type", "image/png")], [1, 2, 3]⟩

/-- Oracle whose replayed export request yields an image response without
attachment headers. -/
def c4ImageOracle : Oracle :=
  { baseOracle with
    race := .request c10Req,
    rawFetch := ⟨true, 200, [("content-type", "image/png")], some [9, 9], none⟩ }

/-- Common image MIME types, standing in for "the content-type indicates an
image". -/
def imageMimes : List String :=
  ["image/png", "image/jpeg", "image/jpg", "image/gif", "image/webp", "image/svg+xml",
   "image/avif", "image/bmp", "image/tiff", "image/x-icon", "image/vnd.microsoft.icon",
   "image/apng", "image/heic", "image/heif"]

/-- Characters of an ordinary filename token: no double quote, semicolon,
whitespace, or (case-folded) asterisk. -/
def plainNameChar (c : Char) : Bool :=
  !(c = dquoteChar || c = ';' || isJsSpace c || c.toLower = '*')

/-- A Content-Disposition header in the quoted-filename form. -/
def quotedHdr (name : String) : String :=
  "attachment; filename=" ++ String.mk [dquoteChar] ++ name ++ String.mk [dquoteChar]

/-- A Content-Disposition header in the extended percent-encoded form. -/
def extHdr (tok : String) : String :=
  "attachment; filename*=UTF-8" ++ String.mk [squoteChar, squoteChar] ++ tok

/-! ## General lemmas about the string machinery -/

theorem listPfx_iff (p l : List Char) : listPfx p l = true ↔ p <+: l := by
  induction p generalizing l with
  | nil => simp [listPfx]
  | cons a ps ih =>
    cases l with
    | nil => simp [listPfx]
    | cons c cs =>
      rw [listPfx, Bool.and_eq_true, beq_iff_eq, ih, List.cons_prefix_cons]

theorem listInf_iff (p l : List Char) : listInf p l = true ↔ p <:+: l := by
  induction l with
  | nil => simp [listInf, List.isEmpty_iff, List.infix_nil]
  | cons c cs ih =>
    rw [listInf, Bool.or_eq_true, listPfx_iff, ih, List.infix_cons_iff]

theorem strContains_trans {s big inner : String} (h1 : strContainsL s big = true)
    (h2 : strContainsL big inner = true) : strContainsL s inner = true := by
  rw [strContainsL, listInf_iff] at *
  exact h2.trans h1

theorem takeWhile_append_all {p : Char → Bool} {xs : List Char} (ys : List Char)
    (h : xs.all p = true) : (xs ++ ys).takeWhile p = xs ++ ys.takeWhile p := by
  induction xs with
  | nil => simp
  | cons c cs ih =>
    simp only [List.all_cons, Bool.and_eq_true] at h
    simp [List.takeWhile_cons, h.1, ih h.2]

theorem takeWhile_all {p : Char → Bool} {xs : List Char} (h : xs.all p = true) :
    xs.takeWhile p = xs := by
  have := takeWhile_append_all (p := p) [] h
  simpa using this

theorem dropWhile_head_false {p : Char → Bool} {c : Char} {cs : List Char}
    (h : p c = false) : (c :: cs).dropWhile p = c :: cs := by
  simp [List.dropWhile_cons, h]

theorem jsTrimList_id {l : List Char} (h : l.all (fun c => !isJsSpace c) = true) :
    jsTrimList l = l := by
  have hall : ∀ c ∈ l, isJsSpace c = false := by
    intro c hc
    have := List.all_eq_true.mp h c hc
    simpa using this
  have h1 : l.dropWhile isJsSpace = l := by
    cases l with
    | nil => rfl
    | cons c cs => exact dropWhile_head_false (hall c (by simp))
  have h2 : l.reverse.dropWhile isJsSpace = l.reverse := by
    cases hr : l.reverse with
    | nil => rfl
    | cons c cs =>
      have hc : c ∈ l := by
        have : c ∈ l.reverse := by rw [hr]; simp
        simpa using this
      exact dropWhile_head_false (hall c hc)
  rw [jsTrimList, h1, h2, List.reverse_reverse]

theorem stripOuterQuotes_id {l : List Char} (h : l.all (fun c => !(c = dquoteChar)) = true) :
    stripOuterQuotes l = l := by
  have hall : ∀ c ∈ l, (c = dquoteChar) = False := by
    intro c hc
    have := List.all_eq_true.mp h c hc
    simpa using this
  have h1 : dropLeadQuote l = l := by
    cases l with
    | nil => rfl
    | cons c cs =>
      have := hall c (by simp)
      simp [dropLeadQuote, this]
  have h2 : dropTrailQuote l = l := by
    rw [dropTrailQuote]
    cases hr : l.reverse with
    | nil => rfl
    | cons c cs =>
      have hc : c ∈ l := by
        have : c ∈ l.reverse := by rw [hr]; simp
        simpa using this
      have := hall c hc
      simp [this]
  rw [stripOuterQuotes, h1, h2]

theorem string_ne_empty_of_data {s : String} (h : s.data ≠ []) : s ≠ "" := by
  intro he
  exact h (by rw [he])

theorem string_mk_data (s : String) : String.mk s.data = s := by
  cases s
  rfl

/-! ## Run-level helper lemmas -/

theorem countEff_append (p : Eff → Bool) (a b : List Eff) :
    countEff p (a ++ b) = countEff p a + countEff p b := by
  simp [countEff, List.filter_append]

theorem runMain_entry (o : Oracle) (g w : String)
    (hg : requireEnvE o.env "SE_RANKING_GUEST_URL" = .ok g)
    (hw : requireEnvE o.env "WEBHOOK_URL" = .ok w)
    (hc : o.newContextOk = true) (hp : o.newPageOk = true) :
    (runMain o).trace =
      [Eff.launch, Eff.newContext, Eff.newPage] ++
        (rjsTryBody o g (preferredFormatOf o.env)).1 ++
        dbgOf (rjsTryBody o g (preferredFormatOf o.env)).2 o.nowIso o.screenshotOk ++
        [Eff.ctxClose, Eff.browserClose] ∧
    (runMain o).result = (rjsTryBody o g (preferredFormatOf o.env)).2 := by
  unfold runMain
  rw [hg, hw, hc, hp]
  cases hb : (rjsTryBody o g (preferredFormatOf o.env)).2 with
  | ok u => cases u; simp [hb, dbgOf]
  | error e => simp [hb, dbgOf, List.append_assoc]

theorem writeDebug_no_core (n : String) (s : Bool) (m : String) :
    countEff isArtifactEff (writeDebugArtifactsEff n s) = 0 ∧
    countEff isUploadEff (writeDebugArtifactsEff n s) = 0 ∧
    countEff isReplayEff (writeDebugArtifactsEff n s) = 0 ∧
    countEff isGetFetchEff (writeDebugArtifactsEff n s) = 0 ∧
    countUploadMethod m (writeDebugArtifactsEff n s) = 0 := by
  cases s <;>
    simp [writeDebugArtifactsEff, countEff, countUploadMethod, List.filter,
      isArtifactEff, isUploadEff, isReplayEff, isGetFetchEff]

/-- Branch characterisation of the capture section of `main`: every run of
the `try` block falls into exactly one of the six control-flow outcomes of
`src/run.js` lines 207-369. -/
theorem rjsTryBody_cases (o : Oracle) (g pf : String) :
    ((o.gotoOk = false ∨ o.uiOk = false ∨ o.race = .nothing) ∧
      (rjsTryBody o g pf).1 = [Eff.goto g] ∧
      resultIsError (rjsTryBody o g pf).2 = true) ∨
    (∃ d, o.race = .download d ∧
      rjsTryBody o g pf = ([Eff.goto g,
          Eff.artifactWrite (rjsDownloadName d.suggestedFilename pf) d.size,
          Eff.uploadCall (rjsDownloadName d.suggestedFilename pf) pf "download-event"],
        if o.uploadOk then .ok () else .error "Webhook upload failed")) ∨
    (∃ req b, o.race = .request req ∧
      rjsCaptureGuard (reqFetchedOf o req) (reqCdOf o req) (reqCtOf o req) = true ∧
      o.rawFetch.bodyRes = some b ∧ b.isEmpty = false ∧
      rjsTryBody o g pf = ([Eff.goto g, reqReplayEff o req,
          Eff.artifactWrite (reqNameOf o req pf) b.length,
          Eff.uploadCall (reqNameOf o req pf) pf "request-fetch-bytes"],
        if o.uploadOk then .ok () else .error "Webhook upload failed")) ∨
    (∃ req u, o.race = .request req ∧ reqFindUrl o req = some u ∧
      (reqFetchedOf o req).ok = true ∧ o.res2.ok = true ∧
      rjsTryBody o g pf = ([Eff.goto g, reqReplayEff o req, Eff.getFetch u,
          Eff.artifactWrite (res2NameOf o pf) o.res2.body.length,
          Eff.uploadCall (res2NameOf o pf) pf "json-to-download-url"],
        if o.uploadOk then .ok () else .error "Webhook upload failed")) ∨
    (∃ req u, o.race = .request req ∧ reqFindUrl o req = some u ∧
      (reqFetchedOf o req).ok = true ∧ o.res2.ok = false ∧
      (rjsTryBody o g pf).1 = [Eff.goto g, reqReplayEff o req, Eff.getFetch u] ∧
      resultIsError (rjsTryBody o g pf).2 = true) ∨
    (∃ req, o.race = .request req ∧
      rjsCaptureGuard (reqFetchedOf o req) (reqCdOf o req) (reqCtOf o req) = false ∧
      (reqFindUrl o req = none ∨ (reqFetchedOf o req).ok = false) ∧
      (rjsTryBody o g pf).1 = [Eff.goto g, reqReplayEff o req] ∧
      resultIsError (rjsTryBody o g pf).2 = true) := by
  cases hgo : o.gotoOk with
  | false =>
    have hx : rjsTryBody o g pf = ([Eff.goto g], .error "page.goto failed") := by
      unfold rjsTryBody; rw [hgo]; rfl
    exact Or.inl ⟨Or.inl rfl, by rw [hx], by rw [hx]; rfl⟩
  | true =>
    cases hui : o.uiOk with
    | false =>
      have hx : rjsTryBody o g pf = ([Eff.goto g], .error "export UI interaction failed") := by
        unfold rjsTryBody; rw [hgo, hui]; rfl
      exact Or.inl ⟨Or.inr (Or.inl rfl), by rw [hx], by rw [hx]; rfl⟩
    | true =>
      cases hr : o.race with
      | nothing =>
        have hx : rjsTryBody o g pf = ([Eff.goto g],
            .error "Geen download event en geen export request gezien na export klik.") := by
          unfold rjsTryBody; rw [hgo, hui, hr]; rfl
        exact Or.inl ⟨Or.inr (Or.inr rfl), by rw [hx], by rw [hx]; rfl⟩
      | download d =>
        have hx : rjsTryBody o g pf = ([Eff.goto g,
            Eff.artifactWrite (rjsDownloadName d.suggestedFilename pf) d.size,
            Eff.uploadCall (rjsDownloadName d.suggestedFilename pf) pf "download-event"],
          if o.uploadOk then .ok () else .error "Webhook upload failed") := by
          unfold rjsTryBody; rw [hgo, hui, hr]; rfl
        exact Or.inr (Or.inl ⟨d, rfl, hx⟩)
      | request req =>
        cases hguard : rjsCaptureGuard (reqFetchedOf o req) (reqCdOf o req) (reqCtOf o req) with
        | true =>
          have hb' : (match (reqFetchedOf o req).buffer with
              | some b => !b.isEmpty | none => false) = true := by
            have h2 := hguard
            unfold rjsCaptureGuard at h2
            simp only [Bool.and_eq_true] at h2
            exact h2.2
          cases hbr : o.rawFetch.bodyRes with
          | none =>
            rw [show (reqFetchedOf o req).buffer = o.rawFetch.bodyRes from rfl, hbr] at hb'
            exact absurd hb' (by simp)
          | some b =>
            rw [show (reqFetchedOf o req).buffer = o.rawFetch.bodyRes from rfl, hbr] at hb'
            have hbe : b.isEmpty = false := by simpa using hb'
            have hx : rjsTryBody o g pf = ([Eff.goto g, reqReplayEff o req,
                Eff.artifactWrite (reqNameOf o req pf) b.length,
                Eff.uploadCall (reqNameOf o req pf) pf "request-fetch-bytes"],
              if o.uploadOk then .ok () else .error "Webhook upload failed") := by
              unfold rjsTryBody
              rw [hgo, hui, hr]
              simp only [Bool.not_true, if_false, hguard, if_true]
              rw [show (reqFetchedOf o req).buffer = o.rawFetch.bodyRes from rfl, hbr]
              rfl
            exact Or.inr (Or.inr (Or.inl ⟨req, b, rfl, hguard, rfl, hbe, hx⟩))
        | false =>
          cases hfnd : reqFindUrl o req with
          | none =>
            have hx : (rjsTryBody o g pf) = ([Eff.goto g, reqReplayEff o req],
                .error (noFileMsg (reqFetchedOf o req).status (reqCtOf o req) (reqCdOf o req))) := by
              unfold rjsTryBody
              rw [hgo, hui, hr]
              simp only [Bool.not_true, if_false, hguard, hfnd]
              rfl
            exact Or.inr (Or.inr (Or.inr (Or.inr (Or.inr
              ⟨req, rfl, hguard, Or.inl hfnd, by rw [hx], by rw [hx]; rfl⟩))))
          | some u =>
            cases hfok : (reqFetchedOf o req).ok with
            | false =>
              have hx : (rjsTryBody o g pf) = ([Eff.goto g, reqReplayEff o req],
                  .error (noFileMsg (reqFetchedOf o req).status (reqCtOf o req) (reqCdOf o req))) := by
                unfold rjsTryBody
                rw [hgo, hui, hr]
                simp only [Bool.not_true, if_false, hguard, hfnd, hfok]
                rfl
              exact Or.inr (Or.inr (Or.inr (Or.inr (Or.inr
                ⟨req, rfl, hguard, Or.inr hfok, by rw [hx], by rw [hx]; rfl⟩))))
            | true =>
              cases hr2 : o.res2.ok with
              | false =>
                have hx : (rjsTryBody o g pf) = ([Eff.goto g, reqReplayEff o req, Eff.getFetch u],
                    .error ("Download URL ophalen faalde: " ++ toString o.res2.status ++
                      " " ++ o.res2.statusText)) := by
                  unfold rjsTryBody
                  rw [hgo, hui, hr]
                  simp only [Bool.not_true, if_false, hguard, hfnd, hfok, hr2, Bool.not_false, if_true]
                  rfl
                exact Or.inr (Or.inr (Or.inr (Or.inr (Or.inl
                  ⟨req, u, rfl, hfnd, hfok, rfl, by rw [hx], by rw [hx]; rfl⟩))))
              | true =>
                have hx : rjsTryBody o g pf = ([Eff.goto g, reqReplayEff o req, Eff.getFetch u,
                    Eff.artifactWrite (res2NameOf o pf) o.res2.body.length,
                    Eff.uploadCall (res2NameOf o pf) pf "json-to-download-url"],
                  if o.uploadOk then .ok () else .error "Webhook upload failed") := by
                  unfold rjsTryBody
                  rw [hgo, hui, hr]
                  simp only [Bool.not_true, if_false, hguard, hfnd, hfok, hr2, Bool.not_true, if_true]
                  rfl
                exact Or.inr (Or.inr (Or.inr (Or.inl ⟨req, u, rfl, hfnd, hfok, rfl, hx⟩)))

theorem countEff_dbgOf (p : Eff → Bool) (r : Except String Unit) (n : String) (s : Bool)
    (hdbg : countEff p (writeDebugArtifactsEff n s) = 0) :
    countEff p (dbgOf r n s) = 0 := by
  cases r with
  | ok u => simp [dbgOf, countEff]
  | error e => simpa [dbgOf] using hdbg

theorem runMain_countEff (o : Oracle) (g w : String)
    (hg : requireEnvE o.env "SE_RANKING_GUEST_URL" = .ok g)
    (hw : requireEnvE o.env "WEBHOOK_URL" = .ok w)
    (hc : o.newContextOk = true) (hp : o.newPageOk = true)
    (p : Eff → Bool)
    (h1 : p Eff.launch = false) (h2 : p Eff.newContext = false) (h3 : p Eff.newPage = false)
    (h4 : p Eff.ctxClose = false) (h5 : p Eff.browserClose = false)
    (hdbg : countEff p (writeDebugArtifactsEff o.nowIso o.screenshotOk) = 0) :
    countEff p (runMain o).trace =
      countEff p (rjsTryBody o g (preferredFormatOf o.env)).1 := by
  rw [(runMain_entry o g w hg hw hc hp).1]
  rw [countEff_append, countEff_append, countEff_append]
  have hpre : countEff p [Eff.launch, Eff.newContext, Eff.newPage] = 0 := by
    simp [countEff, List.filter, h1, h2, h3]
  have hcl : countEff p [Eff.ctxClose, Eff.browserClose] = 0 := by
    simp [countEff, List.filter, h4, h5]
  have hdb := countEff_dbgOf p (rjsTryBody o g (preferredFormatOf o.env)).2 o.nowIso o.screenshotOk hdbg
  omega

theorem jsTruthy_of_http {v : JsVal} (h : isHttpStringVal v = true) : jsTruthy v = true := by
  cases v with
  | jstr s =>
    cases hbe : (s == "") with
    | false => simp [jsTruthy, hbe]
    | true =>
      have hs : s = "" := by simpa using hbe
      subst hs
      simp [isHttpStringVal, strStartsWithL, listPfx] at h
  | jnull => simp [isHttpStringVal] at h
  | jbool b => simp [isHttpStringVal] at h
  | jnum n => simp [isHttpStringVal] at h
  | jarr l => simp [isHttpStringVal] at h
  | jobj f => simp [isHttpStringVal] at h

theorem find_filter_jsTruthy (l : List JsVal) :
    (l.filter jsTruthy).find? isHttpStringVal = l.find? isHttpStringVal := by
  induction l with
  | nil => rfl
  | cons v rest ih =>
    cases hv : jsTruthy v with
    | true =>
      rw [List.filter_cons_of_pos hv]
      cases hh : isHttpStringVal v with
      | true => rw [List.find?_cons_of_pos _ hh, List.find?_cons_of_pos _ hh]
      | false =>
        rw [List.find?_cons_of_neg _ (by simp [hh]), List.find?_cons_of_neg _ (by simp [hh]), ih]
    | false =>
      have hh : isHttpStringVal v = false := by
        cases hi : isHttpStringVal v
        · rfl
        · rw [jsTruthy_of_http hi] at hv; exact absurd hv (by simp)
      rw [List.filter_cons_of_neg (by simp [hv]), List.find?_cons_of_neg _ (by simp [hh]), ih]

theorem reqFindUrl_none_of_buffer (o : Oracle) (req : CapturedReq) (b : List Nat)
    (hb : o.rawFetch.bodyRes = some b) (hbe : b.isEmpty = false) :
    reqFindUrl o req = none := by
  unfold reqFindUrl reqFetchedOf fetchLikeBrowser findDownloadUrlInJsonText
  simp [hb, hbe]

theorem runMain_mem_of_tryBody (o : Oracle) (g w : String)
    (hg : requireEnvE o.env "SE_RANKING_GUEST_URL" = .ok g)
    (hw : requireEnvE o.env "WEBHOOK_URL" = .ok w)
    (hc : o.newContextOk = true) (hp : o.newPageOk = true) {e : Eff}
    (he : e ∈ (rjsTryBody o g (preferredFormatOf o.env)).1) : e ∈ (runMain o).trace := by
  rw [(runMain_entry o g w hg hw hc hp).1]
  simp only [List.mem_append]
  exact Or.inl (Or.inl (Or.inr he))

theorem runMain_downloadUrl_behavior (o : Oracle) (req : CapturedReq) (g w : String)
    (hg : requireEnvE o.env "SE_RANKING_GUEST_URL" = .ok g)
    (hw : requireEnvE o.env "WEBHOOK_URL" = .ok w)
    (hc : o.newContextOk = true) (hp : o.newPageOk = true)
    (hgo : o.gotoOk = true) (hui : o.uiOk = true)
    (hr : o.race = .request req) :
    (reqFindUrl o req = none → countEff isGetFetchEff (runMain o).trace = 0) ∧
    (∀ u, reqFindUrl o req = some u → (reqFetchedOf o req).ok = true →
      Eff.getFetch u ∈ (runMain o).trace ∧
      (o.res2.ok = true → countUploadMethod "json-to-download-url" (runMain o).trace = 1)) := by
  have hdbgG : countEff isGetFetchEff (writeDebugArtifactsEff o.nowIso o.screenshotOk) = 0 := by
    cases o.screenshotOk <;> simp [writeDebugArtifactsEff, countEff, List.filter, isGetFetchEff]
  constructor
  · intro hnone
    rw [runMain_countEff o g w hg hw hc hp isGetFetchEff rfl rfl rfl rfl rfl hdbgG]
    rcases rjsTryBody_cases o g (preferredFormatOf o.env) with
      ⟨hcond, htr, _⟩ | ⟨d, hd, _⟩ | ⟨req2, b, hreq2, hgu, hbr, hbe, hx⟩ |
      ⟨req2, u, hreq2, hfnd, _, _, hx⟩ | ⟨req2, u, hreq2, hfnd, _, _, htr, _⟩ |
      ⟨req2, hreq2, _, _, htr, _⟩
    · rcases hcond with h | h | h
      · rw [hgo] at h; exact absurd h (by simp)
      · rw [hui] at h; exact absurd h (by simp)
      · rw [hr] at h; simp at h
    · rw [hr] at hd; simp at hd
    · rw [show (rjsTryBody o g (preferredFormatOf o.env)).1 = _ from congrArg Prod.fst hx]
      simp [countEff, List.filter, isGetFetchEff, reqReplayEff, fetchLikeBrowser]
    · have hq : req2 = req := by rw [hr] at hreq2; exact (RaceOutcome.request.inj hreq2).symm
      subst hq
      rw [hnone] at hfnd
      exact absurd hfnd (by simp)
    · have hq : req2 = req := by rw [hr] at hreq2; exact (RaceOutcome.request.inj hreq2).symm
      subst hq
      rw [hnone] at hfnd
      exact absurd hfnd (by simp)
    · rw [htr]
      simp [countEff, List.filter, isGetFetchEff, reqReplayEff, fetchLikeBrowser]
  · intro u hu hok
    rcases rjsTryBody_cases o g (preferredFormatOf o.env) with
      ⟨hcond, htr, _⟩ | ⟨d, hd, _⟩ | ⟨req2, b, hreq2, hgu, hbr, hbe, hx⟩ |
      ⟨req2, u2, hreq2, hfnd, hfok, hres2, hx⟩ | ⟨req2, u2, hreq2, hfnd, hfok, hres2, htr, _⟩ |
      ⟨req2, hreq2, hgu, hor, htr, _⟩
    · rcases hcond with h | h | h
      · rw [hgo] at h; exact absurd h (by simp)
      · rw [hui] at h; exact absurd h (by simp)
      · rw [hr] at h; simp at h
    · rw [hr] at hd; simp at hd
    · have hq : req2 = req := by rw [hr] at hreq2; exact (RaceOutcome.request.inj hreq2).symm
      subst hq
      rw [reqFindUrl_none_of_buffer o req2 b hbr hbe] at hu
      exact absurd hu (by simp)
    · have hq : req2 = req := by rw [hr] at hreq2; exact (RaceOutcome.request.inj hreq2).symm
      subst hq
      have hu2 : u2 = u := by rw [hu] at hfnd; exact (Option.some.inj hfnd).symm
      subst hu2
      constructor
      · refine runMain_mem_of_tryBody o g w hg hw hc hp ?_
        rw [show (rjsTryBody o g (preferredFormatOf o.env)).1 = _ from congrArg Prod.fst hx]
        simp
      · intro _
        have hdbgU : countEff
            (fun e => match e with | .uploadCall _ _ m => m == "json-to-download-url" | _ => false)
            (writeDebugArtifactsEff o.nowIso o.screenshotOk) = 0 := by
          cases o.screenshotOk <;> simp [writeDebugArtifactsEff, countEff, List.filter]
        rw [countUploadMethod,
          runMain_countEff o g w hg hw hc hp _ rfl rfl rfl rfl rfl hdbgU]
        rw [show (rjsTryBody o g (preferredFormatOf o.env)).1 = _ from congrArg Prod.fst hx]
        simp [countEff, List.filter, reqReplayEff, fetchLikeBrowser]
    · have hq : req2 = req := by rw [hr] at hreq2; exact (RaceOutcome.request.inj hreq2).symm
      subst hq
      have hu2 : u2 = u := by rw [hu] at hfnd; exact (Option.some.inj hfnd).symm
      subst hu2
      constructor
      · refine runMain_mem_of_tryBody o g w hg hw hc hp ?_
        rw [htr]
        simp
      · intro hres2ok
        rw [hres2ok] at hres2
        exact absurd hres2 (by simp)
    · have hq : req2 = req := by rw [hr] at hreq2; exact (RaceOutcome.request.inj hreq2).symm
      subst hq
      rcases hor with hn | hf
      · rw [hn] at hu; exact absurd hu (by simp)
      · rw [hok] at hf; exact absurd hf (by simp)

/-! ## Claim C6: extension choice from Content-Type -/

/-- **C6** (counterexample to the claim as stated): the OOXML spreadsheet
*template* MIME type contains none of the three MIME strings named by the
claim (`text/csv`, the OOXML spreadsheet MIME, `application/vnd.ms-excel`),
so the claimed mapping requires the last-resort preferred-format default —
`csv` when the preferred format is `CSV` — yet `src/run.js` keys its
second arm on the bare substring `spreadsheetml` and returns `xlsx`. -/
theorem c6_template_mime_counterexample :
    strContainsL (lowerStr ooxmlTemplateMime) "text/csv" = false ∧
    strContainsL (lowerStr ooxmlTemplateMime) ooxmlMime = false ∧
    strContainsL (lowerStr ooxmlTemplateMime) "application/vnd.ms-excel" = false ∧
    extFromContentType (some ooxmlTemplateMime) "CSV" = "xlsx" := by decide

/-- **C6** (amended): a content type containing `text/csv` yields `csv` in
both implementations. `src/run.js` keys its second arm on the bare
substring `spreadsheetml`, so every content type containing it — the full
OOXML spreadsheet MIME, but also e.g. the template MIME — yields `xlsx`,
while the `part_003` variant requires the full OOXML spreadsheet MIME in
its second arm. Otherwise a content type containing
`application/vnd.ms-excel` yields `xls`, and any other content type,
including an absent one, falls back on the preferred format: `csv` when it
is `CSV` and `xlsx` for every other value. -/
theorem c6_ext_from_content_type (ct : String) (pf : String) :
    (strContainsL (lowerStr ct) "text/csv" = true →
      extFromContentType (some ct) pf = "csv" ∧
      extFromContentTypeOoxml (some ct) pf = "csv") ∧
    (strContainsL (lowerStr ct) "spreadsheetml" = true →
      strContainsL (lowerStr ct) "text/csv" = false →
      extFromContentType (some ct) pf = "xlsx") ∧
    (strContainsL (lowerStr ct) ooxmlMime = true →
      strContainsL (lowerStr ct) "text/csv" = false →
      extFromContentTypeOoxml (some ct) pf = "xlsx") ∧
    (strContainsL (lowerStr ct) "application/vnd.ms-excel" = true →
      strContainsL (lowerStr ct) "text/csv" = false →
      strContainsL (lowerStr ct) "spreadsheetml" = false →
      extFromContentType (some ct) pf = "xls") ∧
    (strContainsL (lowerStr ct) "application/vnd.ms-excel" = true →
      strContainsL (lowerStr ct) "text/csv" = false →
      strContainsL (lowerStr ct) ooxmlMime = false →
      extFromContentTypeOoxml (some ct) pf = "xls") ∧
    (strContainsL (lowerStr ct) "text/csv" = false →
      strContainsL (lowerStr ct) "spreadsheetml" = false →
      strContainsL (lowerStr ct) "application/vnd.ms-excel" = false →
      (pf = "CSV" → extFromContentType (some ct) pf = "csv") ∧
      (pf ≠ "CSV" → extFromContentType (some ct) pf = "xlsx")) ∧
    (strContainsL (lowerStr ct) "text/csv" = false →
      strContainsL (lowerStr ct) ooxmlMime = false →
      strContainsL (lowerStr ct) "application/vnd.ms-excel" = false →
      (pf = "CSV" → extFromContentTypeOoxml (some ct) pf = "csv") ∧
      (pf ≠ "CSV" → extFromContentTypeOoxml (some ct) pf = "xlsx")) ∧
    ((pf = "CSV" → extFromContentType none pf = "csv" ∧
        extFromContentTypeOoxml none pf = "csv") ∧
     (pf ≠ "CSV" → extFromContentType none pf = "xlsx" ∧
        extFromContentTypeOoxml none pf = "xlsx")) := by
  refine ⟨?_, ?_, ?_, ?_, ?_, ?_, ?_, ?_⟩
  · intro h
    constructor <;> simp [extFromContentType, extFromContentTypeOoxml, h]
  · intro hsp hcsv
    simp [extFromContentType, hcsv, hsp]
  · intro hoox hcsv
    have hoox2 : strContainsL (lowerStr ct)
        "application/vnd.openxmlformats-officedocument.spreadsheetml.sheet" = true := hoox
    simp [extFromContentTypeOoxml, hcsv, hoox2]
  · intro hxl hcsv hsp
    simp [extFromContentType, hcsv, hsp, hxl]
  · intro hxl hcsv hoox
    have hoox2 : strContainsL (lowerStr ct)
        "application/vnd.openxmlformats-officedocument.spreadsheetml.sheet" = false := hoox
    simp [extFromContentTypeOoxml, hcsv, hoox2, hxl]
  · intro h1 h2 h3
    constructor <;> intro hp <;> simp [extFromContentType, h1, h2, h3, hp]
  · intro h1 h2 h3
    have h2L : strContainsL (lowerStr ct)
        "application/vnd.openxmlformats-officedocument.spreadsheetml.sheet" = false := h2
    constructor <;> intro hp <;> simp [extFromContentTypeOoxml, h1, h2L, h3, hp]
  · have e1 : strContainsL (lowerStr "") "text/csv" = false := by decide
    have e2 : strContainsL (lowerStr "") "spreadsheetml" = false := by decide
    have e2L : strContainsL (lowerStr "")
        "application/vnd.openxmlformats-officedocument.spreadsheetml.sheet" = false := by
      decide
    have e3 : strContainsL (lowerStr "") "application/vnd.ms-excel" = false := by decide
    constructor <;> intro hp <;> constructor <;>
      simp [extFromContentType, extFromContentTypeOoxml, e1, e2, e2L, e3, hp]

/-- Witness for C6: the template MIME takes the `spreadsheetml` arm of
`src/run.js` even under preferred format `CSV`, while the `part_003`
variant falls back on the preferred format for it; the full OOXML MIME and
`text/csv` map alike in both, and an absent content type follows the
preferred format. -/
theorem c6_ext_from_content_type_witness :
    extFromContentType (some ooxmlTemplateMime) "CSV" = "xlsx" ∧
    extFromContentTypeOoxml (some ooxmlTemplateMime) "CSV" = "csv" ∧
    extFromContentType (some ooxmlMime) "CSV" = "xlsx" ∧
    extFromContentTypeOoxml (some ooxmlMime) "CSV" = "xlsx" ∧
    extFromContentType (some "TEXT/CSV; charset=utf-8") "XLSX" = "csv" ∧
    extFromContentType none "XLSX" = "xlsx" :=
  ⟨(c6_ext_from_content_type ooxmlTemplateMime "CSV").2.1 (by decide) (by decide),
   ((c6_ext_from_content_type ooxmlTemplateMime "CSV").2.2.2.2.2.2.1
      (by decide) (by decide) (by decide)).1 rfl,
   (c6_ext_from_content_type ooxmlMime "CSV").2.1 (by decide) (by decide),
   (c6_ext_from_content_type ooxmlMime "CSV").2.2.1 (by decide) (by decide),
   ((c6_ext_from_content_type "TEXT/CSV; charset=utf-8" "XLSX").1 (by decide)).1,
   ((c6_ext_from_content_type "" "XLSX").2.2.2.2.2.2.2.2 (by decide)).1⟩

/-! ## Claim C7: missing required URLs stop the run before any network use -/

theorem requireEnvE_error_of_falsy {env : List (String × String)} {name : String}
    (h : envFalsy env name = true) :
    requireEnvE env name = .error ("Missing env var: " ++ name) := by
  unfold requireEnvE
  unfold envFalsy at h
  cases ha : alookup env name with
  | none => simp
  | some v =>
    rw [ha] at h
    simp only [beq_iff_eq] at h
    simp [h]

theorem requireEnvE_ok_of_not_falsy {env : List (String × String)} {name : String}
    (h : envFalsy env name = false) : ∃ v, requireEnvE env name = .ok v := by
  unfold requireEnvE
  unfold envFalsy at h
  cases ha : alookup env name with
  | none => rw [ha] at h; simp at h
  | some v =>
    rw [ha] at h
    simp only [beq_eq_false_iff_ne, ne_eq] at h
    exact ⟨v, by simp [h]⟩

/-- **C7**: a configuration missing a required URL (the guest URL or, where
required, the webhook URL) terminates with a configuration-error signal
before any network activity: `src/run.js` produces an empty effect trace
(no browser launch, no navigation) and throws `Missing env var: ...`, and
the `src/unnamed/part_005` variant exits with code 1 before
`chromium.launch` when its guest URL resolves to nothing. -/
theorem c7_missing_url_stops_before_network (o : Oracle)
    (args env5 : List (String × String))
    (h : envFalsy o.env "SE_RANKING_GUEST_URL" = true ∨
         envFalsy o.env "WEBHOOK_URL" = true) :
    ((runMain o).trace = [] ∧ resultIsError (runMain o).result = true ∧
      (∃ name, resultErrorMsg (runMain o).result = some ("Missing env var: " ++ name))) ∧
    ((p5GuestUrl args env5 = none ∨ p5GuestUrl args env5 = some "") →
      p5MainStart args env5 = ([], .error 1)) := by
  constructor
  · cases hg : envFalsy o.env "SE_RANKING_GUEST_URL" with
    | true =>
      unfold runMain
      rw [requireEnvE_error_of_falsy hg]
      exact ⟨rfl, rfl, ⟨"SE_RANKING_GUEST_URL", rfl⟩⟩
    | false =>
      have hw : envFalsy o.env "WEBHOOK_URL" = true := by
        rcases h with h | h
        · rw [hg] at h; exact absurd h (by simp)
        · exact h
      obtain ⟨v, hv⟩ := requireEnvE_ok_of_not_falsy hg
      unfold runMain
      rw [hv, requireEnvE_error_of_falsy hw]
      exact ⟨rfl, rfl, ⟨"WEBHOOK_URL", rfl⟩⟩
  · intro h5
    unfold p5MainStart
    rcases h5 with h5 | h5 <;> simp [h5]

/-- Witness for C7: a concrete empty environment and empty argument list. -/
theorem c7_missing_url_stops_before_network_witness :
    ((runMain emptyEnvOracle).trace = [] ∧
      resultIsError (runMain emptyEnvOracle).result = true ∧
      (∃ name, resultErrorMsg (runMain emptyEnvOracle).result =
        some ("Missing env var: " ++ name))) ∧
    ((p5GuestUrl [] [] = none ∨ p5GuestUrl [] [] = some "") →
      p5MainStart [] [] = ([], .error 1)) :=
  c7_missing_url_stops_before_network emptyEnvOracle [] [] (Or.inl (by decide))

/-! ## Claim C10: JSON download-URL extraction and follow-up fetch -/

/-- **C10**: when the replayed export response is neither an attachment nor
a file-like content type but its text parses as JSON, the download URL is
the first of the fields `download_url`, `downloadUrl`, `file_url`,
`fileUrl`, `url`, `result.url`, `data.url`, `data.download_url`,
`data.downloadUrl` that is a string starting with `http`; only such an
http-prefixed string is ever fetched further (delivered with method tag
`json-to-download-url`), and unparseable or empty JSON text yields `null`
and no extra fetch. -/
theorem c10_json_download_url (o : Oracle) (req : CapturedReq) (g w : String)
    (hg : requireEnvE o.env "SE_RANKING_GUEST_URL" = .ok g)
    (hw : requireEnvE o.env "WEBHOOK_URL" = .ok w)
    (hc : o.newContextOk = true) (hp : o.newPageOk = true)
    (hgo : o.gotoOk = true) (hui : o.uiOk = true)
    (hr : o.race = .request req) :
    (∀ j, findDownloadUrlInJson (some j) = firstHttpFieldValue j) ∧
    (∀ q u, findDownloadUrlInJson q = some u → strStartsWithL u "http" = true) ∧
    (∀ q, findDownloadUrlInJsonText none q = none) ∧
    (∀ q, findDownloadUrlInJsonText (some "") q = none) ∧
    (∀ s, findDownloadUrlInJsonText (some s) none = none) ∧
    (reqFindUrl o req = none → countEff isGetFetchEff (runMain o).trace = 0) ∧
    (∀ u, reqFindUrl o req = some u → (reqFetchedOf o req).ok = true →
      Eff.getFetch u ∈ (runMain o).trace ∧
      (o.res2.ok = true → countUploadMethod "json-to-download-url" (runMain o).trace = 1)) := by
  have hrun := runMain_downloadUrl_behavior o req g w hg hw hc hp hgo hui hr
  refine ⟨?_, ?_, ?_, ?_, ?_, hrun.1, hrun.2⟩
  · intro j
    simp only [findDownloadUrlInJson, firstHttpFieldValue, find_filter_jsTruthy]
  · intro q u hqu
    cases q with
    | none => simp [findDownloadUrlInJson] at hqu
    | some j =>
      simp only [findDownloadUrlInJson] at hqu
      cases hfind : (((jsCandidates j).filterMap id).filter jsTruthy).find? isHttpStringVal with
      | none => rw [hfind] at hqu; simp at hqu
      | some v =>
        rw [hfind] at hqu
        have hv := List.find?_some hfind
        cases v with
        | jstr s =>
          have hs : s = u := by simpa using hqu
          subst hs
          simpa [isHttpStringVal] using hv
        | jnull => simp at hqu
        | jbool b => simp at hqu
        | jnum n => simp at hqu
        | jarr l => simp at hqu
        | jobj f => simp at hqu
  · intro q; rfl
  · intro q; rfl
  · intro s
    by_cases hs : s = "" <;> simp [findDownloadUrlInJsonText, findDownloadUrlInJson, hs]

/-- Witness for C10: the concrete JSON scenario fetches exactly the
extracted URL and delivers with the `json-to-download-url` tag. -/
theorem c10_json_download_url_witness :
    findDownloadUrlInJson (some dlJson) = some "https://dl.test/f.csv" ∧
    Eff.getFetch "https://dl.test/f.csv" ∈ (runMain c10Oracle).trace ∧
    countUploadMethod "json-to-download-url" (runMain c10Oracle).trace = 1 := by
  have h := c10_json_download_url c10Oracle c10Req "https://seranking.test/guest"
    "https://hook.test/w" rfl rfl rfl rfl rfl rfl rfl
  refine ⟨?_, ?_, ?_⟩
  · rw [h.1 dlJson]; decide
  · exact (h.2.2.2.2.2.2 "https://dl.test/f.csv" (by decide) rfl).1
  · exact (h.2.2.2.2.2.2 "https://dl.test/f.csv" (by decide) rfl).2 rfl

/-! ## Claims C1, C5, C8, C9: run-level properties -/

theorem resultIsError_iff {r : Except String Unit} :
    resultIsError r = true ↔ ∃ e, r = .error e := by
  cases r with
  | ok u => simp [resultIsError]
  | error e => simp [resultIsError]

theorem rjsTryBody_no_debug (o : Oracle) (g pf : String) :
    countEff isPngEff (rjsTryBody o g pf).1 = 0 ∧
    countEff isHtmlEff (rjsTryBody o g pf).1 = 0 := by
  rcases rjsTryBody_cases o g pf with ⟨_, htr, _⟩ | ⟨d, _, hx⟩ | ⟨req, b, _, _, _, _, hx⟩ |
    ⟨req, u, _, _, _, _, hx⟩ | ⟨req, u, _, _, _, _, htr, _⟩ | ⟨req, _, _, _, htr, _⟩ <;>
    first
      | (rw [htr]
         constructor <;>
           simp [countEff, List.filter, isPngEff, isHtmlEff, reqReplayEff, fetchLikeBrowser])
      | (rw [show (rjsTryBody o g pf).1 = _ from congrArg Prod.fst hx]
         constructor <;>
           simp [countEff, List.filter, isPngEff, isHtmlEff, reqReplayEff, fetchLikeBrowser])

/-- **C1** (counterexample to the claim as stated): a run whose webhook
delivery fails is a failing run that has nevertheless produced exactly one
artifact on disk, refuting "a run that fails produces no artifact". -/
theorem c1_failing_upload_counterexample :
    resultIsError (runMain c1FailedUploadOracle).result = true ∧
    countEff isArtifactEff (runMain c1FailedUploadOracle).trace = 1 := by decide

/-- **C1** (amended): every run writes at most one artifact, attempts
exactly one delivery per written artifact, and a successful run has exactly
one of each; a run may fail after the artifact is written only because the
delivery itself failed. -/
theorem c1_single_artifact_per_run (o : Oracle) :
    countEff isArtifactEff (runMain o).trace ≤ 1 ∧
    countEff isUploadEff (runMain o).trace = countEff isArtifactEff (runMain o).trace ∧
    (resultIsError (runMain o).result = false →
      countEff isArtifactEff (runMain o).trace = 1) := by
  cases hg : requireEnvE o.env "SE_RANKING_GUEST_URL" with
  | error e =>
    have hx : runMain o = ⟨[], .error e⟩ := by unfold runMain; rw [hg]
    rw [hx]
    exact ⟨by simp [countEff], by simp [countEff], by intro h; simp [resultIsError] at h⟩
  | ok g =>
    cases hw : requireEnvE o.env "WEBHOOK_URL" with
    | error e =>
      have hx : runMain o = ⟨[], .error e⟩ := by unfold runMain; rw [hg, hw]
      rw [hx]
      exact ⟨by simp [countEff], by simp [countEff], by intro h; simp [resultIsError] at h⟩
    | ok w =>
      cases hc : o.newContextOk with
      | false =>
        have hx : runMain o = ⟨[Eff.launch], .error "browser.newContext failed"⟩ := by
          unfold runMain; rw [hg, hw, hc]; rfl
        rw [hx]
        exact ⟨by simp [countEff, List.filter, isArtifactEff],
          by simp [countEff, List.filter, isArtifactEff, isUploadEff],
          by intro h; simp [resultIsError] at h⟩
      | true =>
        cases hpg : o.newPageOk with
        | false =>
          have hx : runMain o = ⟨[Eff.launch, Eff.newContext], .error "context.newPage failed"⟩ := by
            unfold runMain; rw [hg, hw, hc, hpg]; rfl
          rw [hx]
          exact ⟨by simp [countEff, List.filter, isArtifactEff],
            by simp [countEff, List.filter, isArtifactEff, isUploadEff],
            by intro h; simp [resultIsError] at h⟩
        | true =>
          have hdbgA : countEff isArtifactEff (writeDebugArtifactsEff o.nowIso o.screenshotOk) = 0 := by
            cases o.screenshotOk <;> simp [writeDebugArtifactsEff, countEff, List.filter, isArtifactEff]
          have hdbgU : countEff isUploadEff (writeDebugArtifactsEff o.nowIso o.screenshotOk) = 0 := by
            cases o.screenshotOk <;> simp [writeDebugArtifactsEff, countEff, List.filter, isUploadEff]
          have hA := runMain_countEff o g w hg hw hc hpg isArtifactEff rfl rfl rfl rfl rfl hdbgA
          have hU := runMain_countEff o g w hg hw hc hpg isUploadEff rfl rfl rfl rfl rfl hdbgU
          have hres := (runMain_entry o g w hg hw hc hpg).2
          rw [hA, hU, hres]
          rcases rjsTryBody_cases o g (preferredFormatOf o.env) with
            ⟨_, htr, herr⟩ | ⟨d, _, hx⟩ | ⟨req, b, _, _, _, _, hx⟩ |
            ⟨req, u, _, _, _, _, hx⟩ | ⟨req, u, _, _, _, _, htr, herr⟩ |
            ⟨req, _, _, _, htr, herr⟩
          · rw [htr]
            refine ⟨by simp [countEff, List.filter, isArtifactEff],
              by simp [countEff, List.filter, isArtifactEff, isUploadEff], ?_⟩
            intro h; rw [h] at herr; exact absurd herr (by simp)
          · rw [show (rjsTryBody o g (preferredFormatOf o.env)).1 = _ from congrArg Prod.fst hx]
            exact ⟨by simp [countEff, List.filter, isArtifactEff],
              by simp [countEff, List.filter, isArtifactEff, isUploadEff],
              fun _ => by simp [countEff, List.filter, isArtifactEff]⟩
          · rw [show (rjsTryBody o g (preferredFormatOf o.env)).1 = _ from congrArg Prod.fst hx]
            exact ⟨by simp [countEff, List.filter, isArtifactEff, reqReplayEff, fetchLikeBrowser],
              by simp [countEff, List.filter, isArtifactEff, isUploadEff, reqReplayEff, fetchLikeBrowser],
              fun _ => by simp [countEff, List.filter, isArtifactEff, reqReplayEff, fetchLikeBrowser]⟩
          · rw [show (rjsTryBody o g (preferredFormatOf o.env)).1 = _ from congrArg Prod.fst hx]
            exact ⟨by simp [countEff, List.filter, isArtifactEff, reqReplayEff, fetchLikeBrowser],
              by simp [countEff, List.filter, isArtifactEff, isUploadEff, reqReplayEff, fetchLikeBrowser],
              fun _ => by simp [countEff, List.filter, isArtifactEff, reqReplayEff, fetchLikeBrowser]⟩
          · rw [htr]
            refine ⟨by simp [countEff, List.filter, isArtifactEff, reqReplayEff, fetchLikeBrowser],
              by simp [countEff, List.filter, isArtifactEff, isUploadEff, reqReplayEff, fetchLikeBrowser], ?_⟩
            intro h; rw [h] at herr; exact absurd herr (by simp)
          · rw [htr]
            refine ⟨by simp [countEff, List.filter, isArtifactEff, reqReplayEff, fetchLikeBrowser],
              by simp [countEff, List.filter, isArtifactEff, isUploadEff, reqReplayEff, fetchLikeBrowser], ?_⟩
            intro h; rw [h] at herr; exact absurd herr (by simp)

/-- Witness for C1 at the concrete successful download-event run. -/
theorem c1_single_artifact_per_run_witness :
    resultIsError (runMain baseOracle).result = false ∧
    countEff isArtifactEff (runMain baseOracle).trace = 1 ∧
    countEff isUploadEff (runMain baseOracle).trace = 1 := by
  refine ⟨by decide, (c1_single_artifact_per_run baseOracle).2.2 (by decide), ?_⟩
  rw [(c1_single_artifact_per_run baseOracle).2.1]
  exact (c1_single_artifact_per_run baseOracle).2.2 (by decide)

/-- **C5** (counterexample to the claim as stated): in the Playwright
variants (`src/unnamed/part_000` line 417, `part_004` line 168, `part_005`
line 205) a download event without a suggested name falls back to
`export-<timestamp>.csv`, not `export.<ext>`. -/
theorem c5_variant_fallback_counterexample :
    pvDownloadName "" "2026-10-11T01:02:03.456Z" = "export-2026-10-11T01_02_03_456Z.csv" ∧
    pvDownloadName "" "2026-10-11T01:02:03.456Z" ≠ "export.csv" ∧
    pvDownloadName "" "2026-10-11T01:02:03.456Z" ≠ "export.xlsx" := by decide

/-- **C5** (amended): when the download-event path wins in `src/run.js`
(and the `part_001`/`part_003` variants), the artifact name is the event's
suggested filename, with fallback `export.csv` for preferred format CSV and
`export.xlsx` otherwise; the Playwright variants instead fall back to the
timestamped `export-<timestamp>.csv`. -/
theorem c5_download_event_filename (o : Oracle) (d : DownloadEvt) (g w : String)
    (hg : requireEnvE o.env "SE_RANKING_GUEST_URL" = .ok g)
    (hw : requireEnvE o.env "WEBHOOK_URL" = .ok w)
    (hc : o.newContextOk = true) (hp : o.newPageOk = true)
    (hgo : o.gotoOk = true) (hui : o.uiOk = true)
    (hr : o.race = .download d) :
    Eff.artifactWrite (rjsDownloadName d.suggestedFilename (preferredFormatOf o.env)) d.size
      ∈ (runMain o).trace ∧
    (∀ s pf, s ≠ "" → rjsDownloadName s pf = s) ∧
    (rjsDownloadName "" "CSV" = "export.csv") ∧
    (∀ pf, pf ≠ "CSV" → rjsDownloadName "" pf = "export.xlsx") ∧
    (∀ s now, s ≠ "" → pvDownloadName s now = s) ∧
    (∀ now, pvDownloadName "" now = "export-" ++ tsClean now ++ ".csv") := by
  refine ⟨?_, ?_, ?_, ?_, ?_, ?_⟩
  · rcases rjsTryBody_cases o g (preferredFormatOf o.env) with
      ⟨hcond, _, _⟩ | ⟨d2, hd2, hx⟩ | ⟨req2, b, hreq2, _, _, _, _⟩ |
      ⟨req2, u, hreq2, _, _, _, _⟩ | ⟨req2, u, hreq2, _, _, _, _, _⟩ |
      ⟨req2, hreq2, _, _, _, _⟩
    · rcases hcond with h | h | h
      · rw [hgo] at h; exact absurd h (by simp)
      · rw [hui] at h; exact absurd h (by simp)
      · rw [hr] at h; simp at h
    · have hq : d2 = d := by
        rw [hr] at hd2; exact (RaceOutcome.download.inj hd2).symm
      subst hq
      refine runMain_mem_of_tryBody o g w hg hw hc hp ?_
      rw [show (rjsTryBody o g (preferredFormatOf o.env)).1 = _ from congrArg Prod.fst hx]
      simp
    · rw [hr] at hreq2; simp at hreq2
    · rw [hr] at hreq2; simp at hreq2
    · rw [hr] at hreq2; simp at hreq2
    · rw [hr] at hreq2; simp at hreq2
  · intro s pf hs; simp [rjsDownloadName, hs]
  · simp [rjsDownloadName, fallbackExportName]
  · intro pf hpf; simp [rjsDownloadName, fallbackExportName, hpf]
  · intro s now hs; simp [pvDownloadName, hs]
  · intro now; simp [pvDownloadName, pvDownloadFallbackName]

/-- Witness for C5 at the concrete download-event run. -/
theorem c5_download_event_filename_witness :
    Eff.artifactWrite (rjsDownloadName "rank.csv" (preferredFormatOf baseOracle.env)) 10
      ∈ (runMain baseOracle).trace ∧
    rjsDownloadName "" "CSV" = "export.csv" ∧
    rjsDownloadName "" "XLSX" = "export.xlsx" ∧
    pvDownloadName "" "2026-10-11T01:02:03.456Z" = "export-2026-10-11T01_02_03_456Z.csv" := by
  have h := c5_download_event_filename baseOracle ⟨"rank.csv", 10⟩
    "https://seranking.test/guest" "https://hook.test/w" rfl rfl rfl rfl rfl rfl rfl
  refine ⟨h.1, h.2.2.1, h.2.2.2.1 "XLSX" (by decide), ?_⟩
  rw [h.2.2.2.2.2 "2026-10-11T01:02:03.456Z"]
  decide

theorem p2Main_entry (o : Oracle) (g w : String)
    (hg : requireEnvE o.env "SE_RANKING_GUEST_URL" = .ok g)
    (hw : requireEnvE o.env "WEBHOOK_URL" = .ok w)
    (hc : o.newContextOk = true) (hp : o.newPageOk = true) :
    (p2Main o).trace = [Eff.launch, Eff.newContext, Eff.newPage] ++
      (p2TryBody o g (preferredFormatOf o.env)).1 ++ [Eff.ctxClose, Eff.browserClose] ∧
    (p2Main o).result = (p2TryBody o g (preferredFormatOf o.env)).2 := by
  unfold p2Main
  rw [hg, hw, hc, hp]
  exact ⟨rfl, rfl⟩

theorem p2TryBody_no_debug (o : Oracle) (g pf : String) :
    countEff isPngEff (p2TryBody o g pf).1 = 0 ∧
    countEff isHtmlEff (p2TryBody o g pf).1 = 0 := by
  unfold p2TryBody
  cases o.gotoOk <;> cases o.uiOk <;> cases o.race <;>
    simp [countEff, List.filter, isPngEff, isHtmlEff]

/-- **C8** (counterexample to the claim as stated): when the page can no
longer be screenshotted, a post-navigation failure of `src/run.js` writes
zero screenshot files (the write is wrapped in `.catch(() => {})`), not
exactly one; in the `part_004` variant the same failing screenshot aborts
the shared `try` of `saveDebugArtifacts`, so not even the HTML snapshot is
written; and the `part_002` variant has no debug writer at all, so a
failing run writes neither file. -/
theorem c8_no_screenshot_counterexample :
    resultIsError (runMain c8NoShotOracle).result = true ∧
    countEff isPngEff (runMain c8NoShotOracle).trace = 0 ∧
    countEff isHtmlEff (runMain c8NoShotOracle).trace = 1 ∧
    p4SaveDebugArtifacts c8NoShotOracle.nowIso "fail" c8NoShotOracle.screenshotOk = [] ∧
    resultIsError (p2Main c8NoShotOracle).result = true ∧
    countEff isPngEff (p2Main c8NoShotOracle).trace = 0 ∧
    countEff isHtmlEff (p2Main c8NoShotOracle).trace = 0 := by decide

/-- **C8** (amended): the three cited sources differ, and only `src/run.js`
writes an HTML snapshot on every post-page failure. In `src/run.js`,
exactly one HTML snapshot is written, at most one screenshot (exactly one
when the screenshot operation itself succeeds; only its own failure is
swallowed by `.catch(() => {})`), the debug filenames carry the same
cleaned timestamp, and the error is re-raised. In the `part_004`-style
`saveDebugArtifacts`, screenshot and HTML write share one `try`, so either
both files are written with one shared timestamp or — when the screenshot
fails — neither is, the HTML snapshot included. The `part_002` variant has
no debug writer at all: a failing run writes neither a screenshot nor an
HTML snapshot and just re-raises through its `finally`. -/
theorem c8_debug_artifacts_on_failure (o : Oracle) (g w : String)
    (hg : requireEnvE o.env "SE_RANKING_GUEST_URL" = .ok g)
    (hw : requireEnvE o.env "WEBHOOK_URL" = .ok w)
    (hc : o.newContextOk = true) (hp : o.newPageOk = true)
    (he : resultIsError (rjsTryBody o g (preferredFormatOf o.env)).2 = true) :
    countEff isHtmlEff (runMain o).trace = 1 ∧
    Eff.debugHtml ("fail-" ++ tsClean o.nowIso ++ ".html") ∈ (runMain o).trace ∧
    countEff isPngEff (runMain o).trace = (if o.screenshotOk then 1 else 0) ∧
    (o.screenshotOk = true →
      Eff.debugPng ("fail-" ++ tsClean o.nowIso ++ ".png") ∈ (runMain o).trace) ∧
    resultIsError (runMain o).result = true ∧
    countEff isPngEff (p4SaveDebugArtifacts o.nowIso "fail" o.screenshotOk) =
      countEff isHtmlEff (p4SaveDebugArtifacts o.nowIso "fail" o.screenshotOk) ∧
    (o.screenshotOk = true →
      countEff isHtmlEff (p4SaveDebugArtifacts o.nowIso "fail" o.screenshotOk) = 1 ∧
      Eff.debugPng ("fail-" ++ tsClean o.nowIso ++ ".png")
        ∈ p4SaveDebugArtifacts o.nowIso "fail" o.screenshotOk ∧
      Eff.debugHtml ("fail-" ++ tsClean o.nowIso ++ ".html")
        ∈ p4SaveDebugArtifacts o.nowIso "fail" o.screenshotOk) ∧
    (o.screenshotOk = false →
      countEff isPngEff (p4SaveDebugArtifacts o.nowIso "fail" o.screenshotOk) = 0 ∧
      countEff isHtmlEff (p4SaveDebugArtifacts o.nowIso "fail" o.screenshotOk) = 0) ∧
    (resultIsError (p2TryBody o g (preferredFormatOf o.env)).2 = true →
      resultIsError (p2Main o).result = true ∧
      countEff isPngEff (p2Main o).trace = 0 ∧
      countEff isHtmlEff (p2Main o).trace = 0) := by
  obtain ⟨e, herr⟩ := resultIsError_iff.mp he
  have hdbg : dbgOf (rjsTryBody o g (preferredFormatOf o.env)).2 o.nowIso o.screenshotOk =
      writeDebugArtifactsEff o.nowIso o.screenshotOk := by
    rw [herr]
    rfl
  have htr := (runMain_entry o g w hg hw hc hp).1
  rw [hdbg] at htr
  have hnod := rjsTryBody_no_debug o g (preferredFormatOf o.env)
  refine ⟨?_, ?_, ?_, ?_, ?_, ?_, ?_, ?_, ?_⟩
  · rw [htr, countEff_append, countEff_append, countEff_append]
    have h1 : countEff isHtmlEff [Eff.launch, Eff.newContext, Eff.newPage] = 0 := by
      simp [countEff, List.filter, isHtmlEff]
    have h2 : countEff isHtmlEff [Eff.ctxClose, Eff.browserClose] = 0 := by
      simp [countEff, List.filter, isHtmlEff]
    have h3 : countEff isHtmlEff (writeDebugArtifactsEff o.nowIso o.screenshotOk) = 1 := by
      cases o.screenshotOk <;> simp [writeDebugArtifactsEff, countEff, List.filter, isHtmlEff]
    have h4 := hnod.2
    omega
  · rw [htr]
    simp only [List.mem_append]
    refine Or.inl (Or.inr ?_)
    cases o.screenshotOk <;> simp [writeDebugArtifactsEff]
  · rw [htr, countEff_append, countEff_append, countEff_append]
    have h1 : countEff isPngEff [Eff.launch, Eff.newContext, Eff.newPage] = 0 := by
      simp [countEff, List.filter, isPngEff]
    have h2 : countEff isPngEff [Eff.ctxClose, Eff.browserClose] = 0 := by
      simp [countEff, List.filter, isPngEff]
    have h4 := hnod.1
    cases hs : o.screenshotOk with
    | true =>
      have h3 : countEff isPngEff (writeDebugArtifactsEff o.nowIso true) = 1 := by
        simp [writeDebugArtifactsEff, countEff, List.filter, isPngEff]
      simp only [eq_self_iff_true, if_true]
      omega
    | false =>
      have h3 : countEff isPngEff (writeDebugArtifactsEff o.nowIso false) = 0 := by
        simp [writeDebugArtifactsEff, countEff, List.filter, isPngEff]
      simp only [Bool.false_eq_true, if_false]
      omega
  · intro hs
    rw [htr]
    simp only [List.mem_append]
    refine Or.inl (Or.inr ?_)
    simp [writeDebugArtifactsEff, hs]
  · rw [(runMain_entry o g w hg hw hc hp).2, herr]
    rfl
  · cases o.screenshotOk <;>
      simp [p4SaveDebugArtifacts, countEff, List.filter, isPngEff, isHtmlEff]
  · intro hs
    refine ⟨?_, ?_, ?_⟩ <;>
      simp [p4SaveDebugArtifacts, hs, countEff, List.filter, isHtmlEff]
  · intro hs
    constructor <;>
      simp [p4SaveDebugArtifacts, hs, countEff, List.filter, isPngEff, isHtmlEff]
  · intro he2
    obtain ⟨e2, herr2⟩ := resultIsError_iff.mp he2
    have h2 := p2Main_entry o g w hg hw hc hp
    have hnod2 := p2TryBody_no_debug o g (preferredFormatOf o.env)
    refine ⟨?_, ?_, ?_⟩
    · rw [h2.2, herr2]
      rfl
    · rw [h2.1, countEff_append, countEff_append]
      have ha : countEff isPngEff [Eff.launch, Eff.newContext, Eff.newPage] = 0 := by
        simp [countEff, List.filter, isPngEff]
      have hb : countEff isPngEff [Eff.ctxClose, Eff.browserClose] = 0 := by
        simp [countEff, List.filter, isPngEff]
      have hcn := hnod2.1
      omega
    · rw [h2.1, countEff_append, countEff_append]
      have ha : countEff isHtmlEff [Eff.launch, Eff.newContext, Eff.newPage] = 0 := by
        simp [countEff, List.filter, isHtmlEff]
      have hb : countEff isHtmlEff [Eff.ctxClose, Eff.browserClose] = 0 := by
        simp [countEff, List.filter, isHtmlEff]
      have hcn := hnod2.2
      omega

/-- Witness for C8 at a concrete post-navigation failure with a healthy
page, covering all three cited sources. -/
theorem c8_debug_artifacts_on_failure_witness :
    countEff isHtmlEff (runMain c8ShotOracle).trace = 1 ∧
    Eff.debugHtml ("fail-" ++ tsClean c8ShotOracle.nowIso ++ ".html")
      ∈ (runMain c8ShotOracle).trace ∧
    countEff isPngEff (runMain c8ShotOracle).trace =
      (if c8ShotOracle.screenshotOk then 1 else 0) ∧
    (c8ShotOracle.screenshotOk = true →
      Eff.debugPng ("fail-" ++ tsClean c8ShotOracle.nowIso ++ ".png")
        ∈ (runMain c8ShotOracle).trace) ∧
    resultIsError (runMain c8ShotOracle).result = true ∧
    countEff isPngEff
        (p4SaveDebugArtifacts c8ShotOracle.nowIso "fail" c8ShotOracle.screenshotOk) =
      countEff isHtmlEff
        (p4SaveDebugArtifacts c8ShotOracle.nowIso "fail" c8ShotOracle.screenshotOk) ∧
    resultIsError (p2Main c8ShotOracle).result = true ∧
    countEff isPngEff (p2Main c8ShotOracle).trace = 0 ∧
    countEff isHtmlEff (p2Main c8ShotOracle).trace = 0 := by
  have h := c8_debug_artifacts_on_failure c8ShotOracle "https://seranking.test/guest"
    "https://hook.test/w" rfl rfl rfl rfl (by decide)
  have hp2 := h.2.2.2.2.2.2.2.2 (by decide)
  exact ⟨h.1, h.2.1, h.2.2.1, h.2.2.2.1, h.2.2.2.2.1, h.2.2.2.2.2.1,
    hp2.1, hp2.2.1, hp2.2.2⟩

/-- **C9** (counterexample to the claim as stated): if `browser.newContext`
throws, the crash happens after the browser was launched but outside the
`try`/`finally` of `src/run.js` lines 207-380, so the process exits without
ever closing the browser. -/
theorem c9_newcontext_crash_counterexample :
    (runMain c9NoContextOracle).trace = [Eff.launch] ∧
    resultIsError (runMain c9NoContextOracle).result = true ∧
    Eff.browserClose ∉ (runMain c9NoContextOracle).trace := by decide

/-- **C9** (amended): once context and page creation succeed, every exit
path - success, expected failure, or crash inside the `try` - ends the
trace with the context close followed by the browser close. -/
theorem c9_browser_closed_after_setup (o : Oracle) (g w : String)
    (hg : requireEnvE o.env "SE_RANKING_GUEST_URL" = .ok g)
    (hw : requireEnvE o.env "WEBHOOK_URL" = .ok w)
    (hc : o.newContextOk = true) (hp : o.newPageOk = true) :
    ∃ t, (runMain o).trace = t ++ [Eff.ctxClose, Eff.browserClose] := by
  refine ⟨[Eff.launch, Eff.newContext, Eff.newPage] ++
    (rjsTryBody o g (preferredFormatOf o.env)).1 ++
    dbgOf (rjsTryBody o g (preferredFormatOf o.env)).2 o.nowIso o.screenshotOk, ?_⟩
  rw [(runMain_entry o g w hg hw hc hp).1]

/-- Witness for C9 at the concrete successful run. -/
theorem c9_browser_closed_after_setup_witness :
    ∃ t, (runMain baseOracle).trace = t ++ [Eff.ctxClose, Eff.browserClose] :=
  c9_browser_closed_after_setup baseOracle "https://seranking.test/guest"
    "https://hook.test/w" rfl rfl rfl rfl

/-! ## Claim C4: image responses and the matching predicate -/

theorem looksLikeFileType_image {ct : String} (himg : lowerStr ct ∈ imageMimes) :
    looksLikeFileType (some ct) = false := by
  unfold looksLikeFileType
  simp only [Option.getD_some]
  simp only [imageMimes, List.mem_cons, List.not_mem_nil, or_false] at himg
  rcases himg with h | h | h | h | h | h | h | h | h | h | h | h | h | h <;> rw [h] <;> decide

theorem reqHdr_cd_eq (o : Oracle) (r : CapturedReq) :
    reqCdOf o r = getHdr o.rawFetch.headers "content-disposition" "Content-Disposition" := rfl

theorem reqHdr_ct_eq (o : Oracle) (r : CapturedReq) :
    reqCtOf o r = getHdr o.rawFetch.headers "content-type" "Content-Type" := rfl

/-- **C4** (counterexample to the claim as stated): an image response whose
Content-Disposition marks it as an attachment is accepted by the
`part_003` response predicate and written out as the captured artifact,
even though its content type is `image/png` and even with `download` in the
URL. -/
theorem c4_attachment_image_counterexample :
    p3ResponseMatches c4ImageAttachResp.url
      (getHdr c4ImageAttachResp.headers "content-disposition" "Content-Disposition")
      (getHdr c4ImageAttachResp.headers "content-type" "Content-Type") = true ∧
    strContainsL (lowerStr c4ImageAttachResp.url) "download" = true ∧
    countEff isArtifactEff (p3Capture (.response c4ImageAttachResp) "CSV" true).1 = 1 ∧
    resultIsError (p3Capture (.response c4ImageAttachResp) "CSV" true).2 = false := by decide

/-- **C4** (amended): a response whose content type is an image type and
which carries no attachment Content-Disposition is rejected by the
`part_003` matching predicate, fails the request-branch acceptance guard of
`src/run.js`, and is never delivered as a `request-fetch-bytes` artifact,
whatever the URL. -/
theorem c4_image_response_rejected (ct url : String) (cd : Option String)
    (himg : lowerStr ct ∈ imageMimes) (hatt : isAttachmentCd cd = false) :
    p3ResponseMatches url cd (some ct) = false ∧
    (∀ f : Fetched, rjsCaptureGuard f cd (some ct) = false) ∧
    (∀ o : Oracle,
      getHdr o.rawFetch.headers "content-type" "Content-Type" = some ct →
      getHdr o.rawFetch.headers "content-disposition" "Content-Disposition" = cd →
      countUploadMethod "request-fetch-bytes" (runMain o).trace = 0) := by
  have hfile := looksLikeFileType_image himg
  have hguardF : ∀ f : Fetched, rjsCaptureGuard f cd (some ct) = false := by
    intro f
    unfold rjsCaptureGuard
    rw [hatt, hfile]
    simp
  refine ⟨?_, hguardF, ?_⟩
  · unfold p3ResponseMatches
    rw [hatt, hfile]
    simp
  · intro o hct hcd
    have hdbg : countUploadMethod "request-fetch-bytes"
        (writeDebugArtifactsEff o.nowIso o.screenshotOk) = 0 := by
      cases o.screenshotOk <;> simp [writeDebugArtifactsEff, countUploadMethod, countEff, List.filter]
    have hde : (("download-event" : String) == "request-fetch-bytes") = false := by decide
    have hjd : (("json-to-download-url" : String) == "request-fetch-bytes") = false := by decide
    cases hg : requireEnvE o.env "SE_RANKING_GUEST_URL" with
    | error e =>
      have hx : runMain o = ⟨[], .error e⟩ := by unfold runMain; rw [hg]
      rw [hx]
      simp [countUploadMethod, countEff]
    | ok g =>
      cases hw : requireEnvE o.env "WEBHOOK_URL" with
      | error e =>
        have hx : runMain o = ⟨[], .error e⟩ := by unfold runMain; rw [hg, hw]
        rw [hx]
        simp [countUploadMethod, countEff]
      | ok w =>
        cases hc : o.newContextOk with
        | false =>
          have hx : runMain o = ⟨[Eff.launch], .error "browser.newContext failed"⟩ := by
            unfold runMain; rw [hg, hw, hc]; rfl
          rw [hx]
          simp [countUploadMethod, countEff, List.filter]
        | true =>
          cases hpg : o.newPageOk with
          | false =>
            have hx : runMain o = ⟨[Eff.launch, Eff.newContext],
                .error "context.newPage failed"⟩ := by
              unfold runMain; rw [hg, hw, hc, hpg]; rfl
            rw [hx]
            simp [countUploadMethod, countEff, List.filter]
          | true =>
            rw [countUploadMethod,
              runMain_countEff o g w hg hw hc hpg _ rfl rfl rfl rfl rfl hdbg]
            rcases rjsTryBody_cases o g (preferredFormatOf o.env) with
              ⟨_, htr, _⟩ | ⟨d, _, hx⟩ | ⟨req2, b, _, hgu, _, _, hx⟩ |
              ⟨req2, u, _, _, _, _, hx⟩ | ⟨req2, u, _, _, _, _, htr, _⟩ |
              ⟨req2, _, _, _, htr, _⟩
            · rw [htr]; simp [countEff, List.filter]
            · rw [show (rjsTryBody o g (preferredFormatOf o.env)).1 = _ from
                congrArg Prod.fst hx]
              simp [countEff, List.filter, hde]
            · rw [reqHdr_cd_eq, reqHdr_ct_eq, hct, hcd] at hgu
              rw [hguardF _] at hgu
              exact absurd hgu (by simp)
            · rw [show (rjsTryBody o g (preferredFormatOf o.env)).1 = _ from
                congrArg Prod.fst hx]
              simp [countEff, List.filter, hjd, reqReplayEff, fetchLikeBrowser]
            · rw [htr]; simp [countEff, List.filter, reqReplayEff, fetchLikeBrowser]
            · rw [htr]; simp [countEff, List.filter, reqReplayEff, fetchLikeBrowser]

/-- Witness for C4 at `image/png` with no attachment header. -/
theorem c4_image_response_rejected_witness :
    p3ResponseMatches "https://a.test/download?x=1" none (some "image/png") = false ∧
    rjsCaptureGuard (reqFetchedOf c4ImageOracle c10Req) none (some "image/png") = false ∧
    countUploadMethod "request-fetch-bytes" (runMain c4ImageOracle).trace = 0 := by
  have h := c4_image_response_rejected "image/png" "https://a.test/download?x=1" none
    (by decide) (by decide)
  exact ⟨h.1, h.2.1 _, h.2.2 c4ImageOracle (by decide) (by decide)⟩

/-! ## Claim C2: empty bodies, the replay fetch and its headers -/

theorem upsert_mem {acc : List (String × String)} {k v a b : String}
    (h : (a, b) ∈ upsert acc k v) : a = k ∨ ∃ v1, (a, v1) ∈ acc := by
  induction acc with
  | nil =>
    simp only [upsert, List.mem_singleton] at h
    exact Or.inl (by simpa using congrArg Prod.fst h)
  | cons p rest ih =>
    obtain ⟨x, y⟩ := p
    by_cases hxk : x = k
    · simp only [upsert, if_pos hxk] at h
      rcases List.mem_cons.mp h with h1 | h1
      · exact Or.inl (by simpa using congrArg Prod.fst h1)
      · exact Or.inr ⟨b, List.mem_cons_of_mem _ h1⟩
    · simp only [upsert, if_neg hxk] at h
      rcases List.mem_cons.mp h with h1 | h1
      · refine Or.inr ⟨y, ?_⟩
        rw [show a = x from by simpa using congrArg Prod.fst h1]
        exact List.mem_cons_self _ _
      · rcases ih h1 with h2 | ⟨v1, h2⟩
        · exact Or.inl h2
        · exact Or.inr ⟨v1, List.mem_cons_of_mem _ h2⟩

theorem pickSafeHeaders_aux (hs : List (String × String)) (acc : List (String × String))
    (hacc : ∀ p ∈ acc, p.1 ∈ safeHeaderAllowList) :
    ∀ p ∈ hs.foldl (fun acc2 q =>
      let key := lowerStr q.1
      if safeHeaderAllowList.contains key then upsert acc2 key q.2 else acc2) acc,
      p.1 ∈ safeHeaderAllowList := by
  induction hs generalizing acc with
  | nil => simpa using hacc
  | cons q rest ih =>
    intro p hp
    simp only [List.foldl_cons] at hp
    by_cases hk : safeHeaderAllowList.contains (lowerStr q.1) = true
    · rw [if_pos hk] at hp
      refine ih (upsert acc (lowerStr q.1) q.2) ?_ p hp
      intro p2 hp2
      obtain ⟨a, b⟩ := p2
      rcases upsert_mem hp2 with h1 | ⟨v1, h1⟩
      · subst h1
        exact List.mem_of_elem_eq_true hk
      · exact hacc (a, v1) h1
    · rw [if_neg hk] at hp
      exact ih acc hacc p hp

theorem pickSafeHeaders_allowed (hs : List (String × String)) :
    ∀ p ∈ pickSafeHeaders hs, p.1 ∈ safeHeaderAllowList := by
  intro p hp
  exact pickSafeHeaders_aux hs [] (by simp) p hp

theorem rjsCaptureGuard_buffer {f : Fetched} {cd ct : Option String}
    (h : rjsCaptureGuard f cd ct = true) :
    ∃ b, f.buffer = some b ∧ b.isEmpty = false := by
  unfold rjsCaptureGuard at h
  simp only [Bool.and_eq_true] at h
  obtain ⟨⟨_, _⟩, h3⟩ := h
  cases hb : f.buffer with
  | none => rw [hb] at h3; simp at h3
  | some b => rw [hb] at h3; exact ⟨b, rfl, by simpa using h3⟩

/-- **C2** (counterexample to the claim as stated): in `src/unnamed/part_003`
a matching export response whose in-band body is empty makes the run fail
immediately with the descriptive empty-body error and zero replay fetches,
refuting "performs exactly one replay fetch before failing". -/
theorem c2_empty_body_counterexample :
    p3ResponseMatches c2EmptyResp.url
      (getHdr c2EmptyResp.headers "content-disposition" "Content-Disposition")
      (getHdr c2EmptyResp.headers "content-type" "Content-Type") = true ∧
    (p3Capture (.response c2EmptyResp) "CSV" true).1 = [] ∧
    resultErrorMsg (p3Capture (.response c2EmptyResp) "CSV" true).2 =
      some "Export response ontvangen, maar body is leeg." ∧
    countEff isReplayEff (p3Capture (.response c2EmptyResp) "CSV" true).1 = 0 := by decide

/-- **C2** (amended): a matching response with an empty in-band body fails
at once with the descriptive empty-body error, no replay and no file; the
replay that does exist lives in `src/run.js`, where a captured export
request is replayed exactly once with the same URL, method and body and
only allow-listed headers, and the request-bytes branch only ever writes a
buffer proven nonempty by its guard. -/
theorem c2_empty_body_no_replay (o : Oracle) (req : CapturedReq) (g w : String)
    (hg : requireEnvE o.env "SE_RANKING_GUEST_URL" = .ok g)
    (hw : requireEnvE o.env "WEBHOOK_URL" = .ok w)
    (hc : o.newContextOk = true) (hp : o.newPageOk = true)
    (hgo : o.gotoOk = true) (hui : o.uiOk = true)
    (hr : o.race = .request req) :
    (∀ (r : P3Resp) (pf : String) (uOk : Bool), r.body = [] →
      (p3Capture (.response r) pf uOk).1 = [] ∧
      resultErrorMsg (p3Capture (.response r) pf uOk).2 =
        some "Export response ontvangen, maar body is leeg." ∧
      countEff isReplayEff (p3Capture (.response r) pf uOk).1 = 0) ∧
    (∀ (rq : CapturedReq) (raw : RawFetch),
      (fetchLikeBrowser rq raw).1 =
        Eff.replayFetch rq.url rq.method (pickSafeHeaders rq.headers) rq.postData.isSome) ∧
    (∀ hs : List (String × String), ∀ p ∈ pickSafeHeaders hs, p.1 ∈ safeHeaderAllowList) ∧
    (∀ (f : Fetched) (cd ct : Option String), rjsCaptureGuard f cd ct = true →
      ∃ b, f.buffer = some b ∧ b.isEmpty = false) ∧
    countEff isReplayEff (runMain o).trace = 1 := by
  refine ⟨?_, fun rq raw => rfl, pickSafeHeaders_allowed,
    fun f cd ct h => rjsCaptureGuard_buffer h, ?_⟩
  · intro r pf uOk hbody
    have hbe : r.body.isEmpty = true := by rw [hbody]; rfl
    refine ⟨?_, ?_, ?_⟩ <;> simp [p3Capture, hbe, countEff, resultErrorMsg]
  · have hdbg : countEff isReplayEff (writeDebugArtifactsEff o.nowIso o.screenshotOk) = 0 := by
      cases o.screenshotOk <;> simp [writeDebugArtifactsEff, countEff, List.filter, isReplayEff]
    rw [runMain_countEff o g w hg hw hc hp isReplayEff rfl rfl rfl rfl rfl hdbg]
    rcases rjsTryBody_cases o g (preferredFormatOf o.env) with
      ⟨hcond, _, _⟩ | ⟨d, hd, _⟩ | ⟨req2, b, _, _, _, _, hx⟩ |
      ⟨req2, u, _, _, _, _, hx⟩ | ⟨req2, u, _, _, _, _, htr, _⟩ |
      ⟨req2, _, _, _, htr, _⟩
    · rcases hcond with h | h | h
      · rw [hgo] at h; exact absurd h (by simp)
      · rw [hui] at h; exact absurd h (by simp)
      · rw [hr] at h; simp at h
    · rw [hr] at hd; simp at hd
    · rw [show (rjsTryBody o g (preferredFormatOf o.env)).1 = _ from congrArg Prod.fst hx]
      simp [countEff, List.filter, isReplayEff, reqReplayEff, fetchLikeBrowser]
    · rw [show (rjsTryBody o g (preferredFormatOf o.env)).1 = _ from congrArg Prod.fst hx]
      simp [countEff, List.filter, isReplayEff, reqReplayEff, fetchLikeBrowser]
    · rw [htr]
      simp [countEff, List.filter, isReplayEff, reqReplayEff, fetchLikeBrowser]
    · rw [htr]
      simp [countEff, List.filter, isReplayEff, reqReplayEff, fetchLikeBrowser]

/-- Witness for C2 at the concrete empty response and the concrete
request-replay run. -/
theorem c2_empty_body_no_replay_witness :
    (p3Capture (.response c2EmptyResp) "CSV" true).1 = [] ∧
    resultErrorMsg (p3Capture (.response c2EmptyResp) "CSV" true).2 =
      some "Export response ontvangen, maar body is leeg." ∧
    countEff isReplayEff (runMain c10Oracle).trace = 1 := by
  have h := c2_empty_body_no_replay c10Oracle c10Req "https://seranking.test/guest"
    "https://hook.test/w" rfl rfl rfl rfl rfl rfl rfl
  exact ⟨(h.1 c2EmptyResp "CSV" true rfl).1, (h.1 c2EmptyResp "CSV" true rfl).2.1,
    h.2.2.2.2⟩

/-! ## Content-Disposition scanner lemmas (claim C3) -/

theorem quoteCaptureAt_headmiss {c : Char} (cs : List Char) (h : (c.toLower = 'f') = False) :
    quoteCaptureAt (c :: cs) = none := by
  simp [quoteCaptureAt, fnPat, matchFixedCI, h]

theorem starCaptureAt_headmiss {c : Char} (cs : List Char) (h : (c.toLower = 'f') = False) :
    starCaptureAt (c :: cs) = none := by
  simp [starCaptureAt, fnStarPat, matchFixedCI, h]

theorem scanQuote_step {c : Char} {cs : List Char} (h : quoteCaptureAt (c :: cs) = none) :
    scanQuoteCapture (c :: cs) = scanQuoteCapture cs := by
  simp [scanQuoteCapture, h]

theorem scanStar_step {c : Char} {cs : List Char} (h : starCaptureAt (c :: cs) = none) :
    scanStarCapture (c :: cs) = scanStarCapture cs := by
  simp [scanStarCapture, h]

theorem scanQuote_hit {l cap : List Char} (h : quoteCaptureAt l = some cap) :
    scanQuoteCapture l = some cap := by
  cases l with
  | nil => simp [quoteCaptureAt, fnPat, matchFixedCI] at h
  | cons c cs => simp [scanQuoteCapture, h]

theorem scanStar_hit {l cap : List Char} (h : starCaptureAt l = some cap) :
    scanStarCapture l = some cap := by
  cases l with
  | nil => simp [starCaptureAt, fnStarPat, matchFixedCI] at h
  | cons c cs => simp [scanStarCapture, h]

theorem quoteCaptureAt_quoted (inner tail : List Char) (hne : inner ≠ [])
    (hin : inner.all (fun c => !(c = dquoteChar || c = ';')) = true) :
    quoteCaptureAt ("filename=".data ++ dquoteChar :: (inner ++ dquoteChar :: tail)) =
      some inner := by
  have hf : Char.toLower 'f' = 'f' := by decide
  have hi : Char.toLower 'i' = 'i' := by decide
  have hl : Char.toLower 'l' = 'l' := by decide
  have he : Char.toLower 'e' = 'e' := by decide
  have hnn : Char.toLower 'n' = 'n' := by decide
  have ha : Char.toLower 'a' = 'a' := by decide
  have hm : Char.toLower 'm' = 'm' := by decide
  have hws : isJsSpace '=' = false := by decide
  have hwd : isJsSpace dquoteChar = false := by decide
  have hcap : (inner ++ dquoteChar :: tail).takeWhile
      (fun x => !(x = dquoteChar || x = ';')) = inner := by
    rw [takeWhile_append_all _ hin]
    simp [List.takeWhile_cons]
  have hdrop : (inner ++ dquoteChar :: tail).drop inner.length = dquoteChar :: tail := by
    exact List.drop_left inner (dquoteChar :: tail)
  have hie : inner.isEmpty = false := by
    cases inner with
    | nil => exact absurd rfl hne
    | cons a as => rfl
  have hcap2 : List.takeWhile (fun x => !decide (x = dquoteChar) && !decide (x = ';'))
      (inner ++ dquoteChar :: tail) = inner := by
    have := hcap
    simpa [Bool.not_or] using this
  simp [quoteCaptureAt, String.data, matchFixedCI, fnPat, hf, hi, hl, he, hnn, ha, hm,
    skipJsWs, hws, hwd, expectChar, hcap, hcap2, hdrop, hie, Option.bind]
  intro hcond
  cases inner with
  | nil => exact absurd rfl hne
  | cons a as =>
    simp only [List.cons_append, List.getElem_cons_zero] at hcond
    have ha2 := List.all_eq_true.mp hin a (by simp)
    simp only [Bool.not_eq_true', Bool.or_eq_false_iff, decide_eq_false_iff_not] at ha2
    exact absurd (hcond ha2.1) ha2.2


theorem starCaptureAt_ext (tokL : List Char) (hne : tokL ≠ [])
    (hns : tokL.all (fun c => !(c = ';')) = true) :
    starCaptureAt ("filename*=UTF-8".data ++ squoteChar :: squoteChar :: tokL) =
      some tokL := by
  have hf : Char.toLower 'f' = 'f' := by decide
  have hi : Char.toLower 'i' = 'i' := by decide
  have hl : Char.toLower 'l' = 'l' := by decide
  have he : Char.toLower 'e' = 'e' := by decide
  have hnn : Char.toLower 'n' = 'n' := by decide
  have ha : Char.toLower 'a' = 'a' := by decide
  have hm : Char.toLower 'm' = 'm' := by decide
  have hst : Char.toLower '*' = '*' := by decide
  have hu : Char.toLower 'U' = 'u' := by decide
  have htt : Char.toLower 'T' = 't' := by decide
  have hff : Char.toLower 'F' = 'f' := by decide
  have hda : Char.toLower '-' = '-' := by decide
  have h8 : Char.toLower '8' = '8' := by decide
  have hsq : Char.toLower squoteChar = squoteChar := by decide
  have hws : isJsSpace '=' = false := by decide
  have hwu : isJsSpace 'U' = false := by decide
  have hie : tokL.isEmpty = false := by
    cases tokL with
    | nil => exact absurd rfl hne
    | cons a as => rfl
  have hcap : tokL.takeWhile (fun c => decide (c ≠ ';')) = tokL := by
    apply takeWhile_all
    simp only [List.all_eq_true] at hns ⊢
    intro c hc
    have := hns c hc
    simpa using this
  simp [starCaptureAt, fnStarPat, utf8QQPat, matchFixedCI, String.data, hf, hi, hl, he,
    hnn, ha, hm, hst, hu, htt, hff, hda, h8, hsq, skipJsWs, hws, hwu, expectChar, hcap,
    hie, Option.bind]
  constructor
  · cases tokL with
    | nil => exact absurd rfl hne
    | cons a as =>
      refine ⟨by simp, ?_⟩
      have := List.all_eq_true.mp hns a (by simp)
      simpa using this
  · intro x hx
    have := List.all_eq_true.mp hns x hx
    simpa using this


theorem matchFixedCI_mem {pat l r : List Char} (h : matchFixedCI pat l = some r) :
    ∀ p ∈ pat, ∃ c ∈ l, c.toLower = p := by
  induction pat generalizing l with
  | nil => intro p hp; simp at hp
  | cons q qs ih =>
    cases l with
    | nil => simp [matchFixedCI] at h
    | cons c cs =>
      by_cases hc : c.toLower = q
      · simp only [matchFixedCI, if_pos hc] at h
        intro p hp
        rcases List.mem_cons.mp hp with h1 | h1
        · exact ⟨c, by simp, by rw [hc, h1]⟩
        · obtain ⟨c2, hc2, hc3⟩ := ih h p h1
          exact ⟨c2, by simp [hc2], hc3⟩
      · simp only [matchFixedCI, if_neg hc] at h
        exact absurd h (by simp)

theorem starCaptureAt_star {l cap : List Char} (h : starCaptureAt l = some cap) :
    ∃ c ∈ l, c.toLower = '*' := by
  unfold starCaptureAt at h
  cases hm : matchFixedCI fnStarPat l with
  | none => rw [hm] at h; simp at h
  | some r1 => exact matchFixedCI_mem hm '*' (by decide)

theorem scanStar_none {l : List Char} (h : l.all (fun c => !(c.toLower = '*')) = true) :
    scanStarCapture l = none := by
  induction l with
  | nil => rfl
  | cons c cs ih =>
    simp only [List.all_cons, Bool.and_eq_true] at h
    have h1 : starCaptureAt (c :: cs) = none := by
      cases hs : starCaptureAt (c :: cs) with
      | none => rfl
      | some cap =>
        obtain ⟨c2, hc2, hc3⟩ := starCaptureAt_star hs
        rcases List.mem_cons.mp hc2 with h2 | h2
        · subst h2
          rw [hc3] at h
          simp at h
        · have := List.all_eq_true.mp h.2 c2 h2
          rw [hc3] at this
          simp at this
    rw [scanStar_step h1]
    exact ih h.2

theorem plainNameChar_spec {c : Char} (h : plainNameChar c = true) :
    (c = dquoteChar) = False ∧ (c = ';') = False ∧ isJsSpace c = false ∧
      (c.toLower = '*') = False := by
  unfold plainNameChar at h
  simp only [Bool.not_eq_true', Bool.or_eq_false_iff, decide_eq_false_iff_not] at h
  exact ⟨by simp [h.1.1.1], by simp [h.1.1.2], h.1.2, by simp [h.2]⟩


/-- **C3** (confirmed): for any plain filename token, the quoted form
`attachment; filename="name"` yields exactly that name, and the extended
percent-encoded form `attachment; filename*=UTF-8` followed by two single
quotes and the token yields the percent-decoded token when decoding
succeeds, falling back to the raw captured token when decoding fails
(the fallback is visible in the statement: the result is the raw token
whenever `decodeURIComponentOpt` returns `none`). -/
theorem c3_filename_extraction (name tok : String)
    (hn : name ≠ "") (hplain : name.data.all plainNameChar = true)
    (ht : tok ≠ "") (htplain : tok.data.all plainNameChar = true) :
    filenameFromContentDisposition (some (quotedHdr name)) = some name ∧
    filenameFromContentDisposition (some (extHdr tok)) =
      some (match decodeURIComponentOpt tok with | some d => d | none => tok) := by
  have hnd : name.data ≠ [] := by
    intro h
    apply hn
    cases name with
    | mk d =>
      have h2 : d = [] := h
      subst h2
      rfl
  have htd : tok.data ≠ [] := by
    intro h
    apply ht
    cases tok with
    | mk d =>
      have h2 : d = [] := h
      subst h2
      rfl
  have hnameStar : name.data.all (fun c => !(c.toLower = '*')) = true := by
    simp only [List.all_eq_true] at hplain ⊢
    intro c hc
    have := plainNameChar_spec (hplain c hc)
    simp [this.2.2.2]
  have hnameQuote : name.data.all (fun c => !(c = dquoteChar || c = ';')) = true := by
    simp only [List.all_eq_true] at hplain ⊢
    intro c hc
    have := plainNameChar_spec (hplain c hc)
    simp [this.1, this.2.1]
  have hnameSpace : name.data.all (fun c => !isJsSpace c) = true := by
    simp only [List.all_eq_true] at hplain ⊢
    intro c hc
    have := plainNameChar_spec (hplain c hc)
    simp [this.2.2.1]
  have htokSemi : tok.data.all (fun c => !(c = ';')) = true := by
    simp only [List.all_eq_true] at htplain ⊢
    intro c hc
    have := plainNameChar_spec (htplain c hc)
    simp [this.2.1]
  have htokSpace : tok.data.all (fun c => !isJsSpace c) = true := by
    simp only [List.all_eq_true] at htplain ⊢
    intro c hc
    have := plainNameChar_spec (htplain c hc)
    simp [this.2.2.1]
  have htokDq : tok.data.all (fun c => !(c = dquoteChar)) = true := by
    simp only [List.all_eq_true] at htplain ⊢
    intro c hc
    have := plainNameChar_spec (htplain c hc)
    simp [this.1]
  constructor
  · have hdata : (quotedHdr name).data =
        'a' :: 't' :: 't' :: 'a' :: 'c' :: 'h' :: 'm' :: 'e' :: 'n' :: 't' :: ';' :: ' ' ::
        'f' :: 'i' :: 'l' :: 'e' :: 'n' :: 'a' :: 'm' :: 'e' :: '=' ::dquoteChar ::
        (name.data ++ [dquoteChar]) := rfl
    have hdata2 : (quotedHdr name).data =
        "attachment; filename=".data ++ ([dquoteChar] ++ (name.data ++ [dquoteChar])) := rfl
    have hne' : quotedHdr name ≠ "" := by
      apply string_ne_empty_of_data
      rw [hdata]
      simp
    have hstar : scanStarCapture (quotedHdr name).data = none := by
      apply scanStar_none
      rw [hdata2]
      simp only [List.all_append, Bool.and_eq_true]
      exact ⟨by decide, by decide, hnameStar, by decide⟩
    have hquote : scanQuoteCapture (quotedHdr name).data = some name.data := by
      rw [hdata]
      rw [scanQuote_step (quoteCaptureAt_headmiss _ (by decide))]
      rw [scanQuote_step (quoteCaptureAt_headmiss _ (by decide))]
      rw [scanQuote_step (quoteCaptureAt_headmiss _ (by decide))]
      rw [scanQuote_step (quoteCaptureAt_headmiss _ (by decide))]
      rw [scanQuote_step (quoteCaptureAt_headmiss _ (by decide))]
      rw [scanQuote_step (quoteCaptureAt_headmiss _ (by decide))]
      rw [scanQuote_step (quoteCaptureAt_headmiss _ (by decide))]
      rw [scanQuote_step (quoteCaptureAt_headmiss _ (by decide))]
      rw [scanQuote_step (quoteCaptureAt_headmiss _ (by decide))]
      rw [scanQuote_step (quoteCaptureAt_headmiss _ (by decide))]
      rw [scanQuote_step (quoteCaptureAt_headmiss _ (by decide))]
      rw [scanQuote_step (quoteCaptureAt_headmiss _ (by decide))]
      exact scanQuote_hit (quoteCaptureAt_quoted name.data [] hnd hnameQuote)
    simp only [filenameFromContentDisposition, if_neg hne', hstar, hquote]
    rw [jsTrimList_id hnameSpace, string_mk_data]
  · have hdataE : (extHdr tok).data =
        'a' :: 't' :: 't' :: 'a' :: 'c' :: 'h' :: 'm' :: 'e' :: 'n' :: 't' :: ';' :: ' ' ::
        'f' :: 'i' :: 'l' :: 'e' :: 'n' :: 'a' :: 'm' :: 'e' :: '*' :: '=' :: 'U' :: 'T' :: 'F' :: '-' :: '8' ::
        squoteChar :: squoteChar :: tok.data := rfl
    have hneE : extHdr tok ≠ "" := by
      apply string_ne_empty_of_data
      rw [hdataE]
      simp
    have hscan : scanStarCapture (extHdr tok).data = some tok.data := by
      rw [hdataE]
      rw [scanStar_step (starCaptureAt_headmiss _ (by decide))]
      rw [scanStar_step (starCaptureAt_headmiss _ (by decide))]
      rw [scanStar_step (starCaptureAt_headmiss _ (by decide))]
      rw [scanStar_step (starCaptureAt_headmiss _ (by decide))]
      rw [scanStar_step (starCaptureAt_headmiss _ (by decide))]
      rw [scanStar_step (starCaptureAt_headmiss _ (by decide))]
      rw [scanStar_step (starCaptureAt_headmiss _ (by decide))]
      rw [scanStar_step (starCaptureAt_headmiss _ (by decide))]
      rw [scanStar_step (starCaptureAt_headmiss _ (by decide))]
      rw [scanStar_step (starCaptureAt_headmiss _ (by decide))]
      rw [scanStar_step (starCaptureAt_headmiss _ (by decide))]
      rw [scanStar_step (starCaptureAt_headmiss _ (by decide))]
      exact scanStar_hit (starCaptureAt_ext tok.data htd htokSemi)
    simp only [filenameFromContentDisposition, if_neg hneE, hscan]
    rw [jsTrimList_id htokSpace, stripOuterQuotes_id htokDq, string_mk_data]
    cases hdec : decodeURIComponentOpt tok <;> simp

theorem c3_filename_extraction_witness :
    ("report.csv" : String) ≠ "" ∧
    filenameFromContentDisposition (some (quotedHdr "report.csv")) = some "report.csv" ∧
    filenameFromContentDisposition (some (extHdr "r%C3%A9sum%C3%A9.csv")) =
      some "résumé.csv" ∧
    filenameFromContentDisposition (some (extHdr "bad%ZZname.csv")) =
      some "bad%ZZname.csv" := by
  have h1 := c3_filename_extraction "report.csv" "r%C3%A9sum%C3%A9.csv"
    (by decide) (by decide) (by decide) (by decide)
  have h2 := c3_filename_extraction "report.csv" "bad%ZZname.csv"
    (by decide) (by decide) (by decide) (by decide)
  refine ⟨by decide, h1.1, ?_, ?_⟩
  · rw [h1.2]
    decide
  · rw [h2.2]
    decide

end AiTracker
